import Mathlib

/-!
Verification development for the jbodgod storage-enclosure management engine.

The Go sources are shallowly embedded: each Go function that a claim touches
is transliterated into a computable Lean definition.  External effects
(smartctl probes, the process-wide cache, zpool export/import, sg_ses LED
commands, SQLite rows) are modelled as explicit inputs (oracles) and as
action traces, so that the control flow of the Go code is preserved exactly
while the environment stays abstract.
-/

namespace JbodGod

/-- Model of Go strings.Contains: does s contain pat as a substring. -/
def strContains (s pat : String) : Bool :=
  s.toList.tails.any (fun t => pat.toList.isPrefixOf t)

/-- Model of Go strings.HasPrefix (char-list based so that proofs can
evaluate it). -/
def strHasPre (s pre : String) : Bool :=
  pre.toList.isPrefixOf s.toList

/-- Model of Go strings.TrimPrefix. -/
def trimPre (s pre : String) : String :=
  if strHasPre s pre then String.mk (s.toList.drop pre.toList.length) else s

/-- Model of Go strings.ToUpper (char-list based). -/
def strToUpper (s : String) : String :=
  String.mk (s.toList.map Char.toUpper)

/-- Model of Go strings.TrimRight with the cutset 0123456789. -/
def trimRightDigits (s : String) : String :=
  String.mk ((s.toList.reverse.dropWhile (fun c => c.isDigit)).reverse)

/-- Go map read m[k]: first binding of k in an association list (later
Go-map writes are modelled by consing in front, so the head binding is the
live one). -/
def lookupMap {α : Type} (m : List (String × α)) (k : String) : Option α :=
  (m.find? (fun p => p.fst == k)).map Prod.snd

/-- Keep dst when set, otherwise take src: the Go merge idiom
if src != nil and dst == nil then dst = src. -/
def fill {α : Type} (dst src : Option α) : Option α :=
  match dst with
  | some v => some v
  | none => src

namespace Collector

/-- internal/collector SysfsDevice (the fields the merge code reads). -/
structure SysfsDevice where
  serial : Option String := none
  wwn : Option String := none
  sasAddress : Option String := none
  model : Option String := none
  vendor : Option String := none
  size : Option Int := none
  hctl : Option String := none
  slot : Option Int := none
  enclosureID : Option String := none
  state : Option String := none
deriving DecidableEq, Repr

/-- internal/collector UdevDevice (the fields mergeUdevData reads; Go empty
string stands for absent). -/
structure UdevDevice where
  idSCSISerial : String := ""
  idWWN : String := ""
  idModel : String := ""
  idVendor : String := ""
  idRevision : String := ""
  idBus : String := ""
deriving DecidableEq, Repr

/-- internal/collector LsblkDevice (the fields mergeLsblkData reads). -/
structure LsblkDevice where
  serial : Option String := none
  wwn : Option String := none
  model : Option String := none
  vendor : Option String := none
  rev : Option String := none
  size : Option Int := none
  tran : Option String := none
  hctl : Option String := none
  fsType : Option String := none
  uuid : Option String := none
  label : Option String := none
  partUUID : Option String := none
  partLabel : Option String := none
deriving DecidableEq, Repr

/-- internal/collector LsscsiDevice. -/
structure LsscsiDevice where
  hctl : String := ""
  vendor : Option String := none
  model : Option String := none
  rev : Option String := none
deriving DecidableEq, Repr

/-- internal/collector ZpoolVdev. -/
structure ZpoolVdev where
  poolName : String := ""
  vdevGUID : String := ""
  vdevType : String := ""
  readErrors : Int := 0
  writeErrors : Int := 0
  cksumErrors : Int := 0
  devicePath : Option String := none
deriving DecidableEq, Repr

/-- internal/collector LvmPV. -/
structure LvmPV where
  pvName : String := ""
  pvUUID : String := ""
  vgName : Option String := none
deriving DecidableEq, Repr

/-- internal/collector HBADevice (the fields mergeHBAData reads). -/
structure HBADevice where
  controllerID : String := ""
  enclosureID : Int := 0
  slot : Int := 0
  deviceID : Option Int := none
  serialVPD : Option String := none
  wwn : Option String := none
  sasAddress : Option String := none
  sectorSize : Option Int := none
  mediaType : Option String := none
  linkSpeed : Option String := none
  mediaErrors : Option Int := none
  phyNum : Option Int := none
deriving DecidableEq, Repr

/-- internal/collector ZfsErrors. -/
structure ZfsErrors where
  read : Int := 0
  write : Int := 0
  cksum : Int := 0
deriving DecidableEq, Repr

/-- internal/collector SystemData: the per-operation snapshot.  Go maps are
association lists; ZpoolVdevs is keyed by vdev GUID and iterated by value,
which the list order determinises. -/
structure SystemData where
  sysfsDevices : List (String × SysfsDevice) := []
  udevDevices : List (String × UdevDevice) := []
  lsblkDevices : List (String × LsblkDevice) := []
  lsscsiDevices : List (String × LsscsiDevice) := []
  byIDLinks : List (String × String) := []
  zpoolVdevs : List (String × ZpoolVdev) := []
  lvmPVs : List (String × LvmPV) := []
  hbaDevices : List (String × HBADevice) := []
deriving Repr

/-- internal/collector DriveData: the fused record. -/
structure DriveData where
  device : String
  serial : Option String := none
  serialVPD : Option String := none
  wwn : Option String := none
  luid : Option String := none
  sasAddress : Option String := none
  byIDPath : Option String := none
  model : Option String := none
  vendor : Option String := none
  firmware : Option String := none
  sizeBytes : Option Int := none
  protocol : Option String := none
  driveType : Option String := none
  formFactor : Option String := none
  sectorSize : Option Int := none
  linkSpeed : Option String := none
  controllerID : Option String := none
  enclosure : Option Int := none
  slot : Option Int := none
  phyNum : Option Int := none
  deviceID : Option Int := none
  scsiAddr : Option String := none
  state : String := "unknown"
  temp : Option Int := none
  smartHealth : Option String := none
  zpool : Option String := none
  vdev : Option String := none
  vdevGUID : Option String := none
  zfsErrors : Option ZfsErrors := none
  lvmPV : Option String := none
  lvmVG : Option String := none
  lvmPVUUID : Option String := none
  fsType : Option String := none
  fsLabel : Option String := none
  fsUUID : Option String := none
  partUUID : Option String := none
  partLabel : Option String := none
  powerOnHours : Option Int := none
  reallocated : Option Int := none
  pendingSectors : Option Int := none
  mediaErrors : Option Int := none
deriving DecidableEq, Repr

/-- collector.mergeSysfsData from the layered merge file (the guarded
assignments written as one simultaneous update; sysfs size is in 512-byte
sectors). -/
def mergeSysfsData (data : DriveData) (s : SysfsDevice) : DriveData :=
  { data with
    serial := fill data.serial s.serial
    wwn := fill data.wwn s.wwn
    sasAddress := fill data.sasAddress s.sasAddress
    model := fill data.model s.model
    vendor := fill data.vendor s.vendor
    sizeBytes := fill data.sizeBytes (s.size.map (fun n => n * 512))
    scsiAddr := fill data.scsiAddr s.hctl
    slot := fill data.slot s.slot
    controllerID :=
      match s.enclosureID with
      | some e => some e
      | none => data.controllerID
    state :=
      match s.state with
      | none => data.state
      | some st =>
        if st = "running" then "unknown"
        else if st = "offline" || st = "blocked" then "failed"
        else "unknown" }

/-- collector.mergeUdevData.  The source is a sequence of guarded
assignments to pairwise distinct fields, written here as one simultaneous
update. -/
def mergeUdevData (data : DriveData) (u : UdevDevice) : DriveData :=
  { data with
    serial := if u.idSCSISerial ≠ "" && data.serial.isNone then some u.idSCSISerial
      else data.serial
    wwn := if u.idWWN ≠ "" && data.wwn.isNone then some (trimPre u.idWWN "0x")
      else data.wwn
    model := if u.idModel ≠ "" && data.model.isNone then some u.idModel else data.model
    vendor := if u.idVendor ≠ "" && data.vendor.isNone then some u.idVendor
      else data.vendor
    firmware := if u.idRevision ≠ "" && data.firmware.isNone then some u.idRevision
      else data.firmware
    protocol := if u.idBus ≠ "" && data.protocol.isNone then
        (if u.idBus = "scsi" then some "SAS"
        else if u.idBus = "ata" then some "SATA"
        else data.protocol)
      else data.protocol }

/-- collector.mergeLsblkData.  The filesystem fields are assigned without a
nil test on the destination, exactly as in the source. -/
def mergeLsblkData (data : DriveData) (l : LsblkDevice) : DriveData :=
  { data with
    serial := fill data.serial l.serial
    wwn := fill data.wwn l.wwn
    model := fill data.model l.model
    vendor := fill data.vendor l.vendor
    firmware := fill data.firmware l.rev
    sizeBytes := fill data.sizeBytes l.size
    protocol := fill data.protocol l.tran
    scsiAddr := fill data.scsiAddr l.hctl
    fsType := match l.fsType with | some v => some v | none => data.fsType
    fsUUID := match l.uuid with | some v => some v | none => data.fsUUID
    fsLabel := match l.label with | some v => some v | none => data.fsLabel
    partUUID := match l.partUUID with | some v => some v | none => data.partUUID
    partLabel := match l.partLabel with | some v => some v | none => data.partLabel }

/-- collector.mergeLsscsiData. -/
def mergeLsscsiData (data : DriveData) (l : LsscsiDevice) : DriveData :=
  { data with
    scsiAddr := fill data.scsiAddr (some l.hctl)
    vendor := fill data.vendor l.vendor
    model := fill data.model l.model
    firmware := fill data.firmware l.rev }

/-- collector.determineStateFromSysfs. -/
def determineStateFromSysfs (data : DriveData) : String :=
  if data.state ≠ "" && data.state ≠ "unknown" then data.state else "unknown"

/-- collector.mergeZFSData: first vdev whose device path (with /dev/ prefix
and trailing partition digits stripped) equals the device name wins. -/
def mergeZFSData (data : DriveData) (devName : String) (sys : SystemData) : DriveData :=
  match sys.zpoolVdevs.find? (fun kv =>
    match kv.snd.devicePath with
    | some p => trimRightDigits (trimPre p "/dev/") == devName
    | none => false) with
  | none => data
  | some kv =>
    { data with
      zpool := some kv.snd.poolName
      vdevGUID := some kv.snd.vdevGUID
      zfsErrors := some { read := kv.snd.readErrors, write := kv.snd.writeErrors,
                          cksum := kv.snd.cksumErrors }
      vdev := if kv.snd.vdevType ≠ "" then some kv.snd.vdevType else data.vdev }

/-- collector.mergeLVMData. -/
def mergeLVMData (data : DriveData) (device : String) (sys : SystemData) : DriveData :=
  match lookupMap sys.lvmPVs device with
  | none => data
  | some pv =>
    { data with
      lvmPV := some pv.pvName
      lvmVG := pv.vgName
      lvmPVUUID := some pv.pvUUID }

/-- collector smartInfo: the record getSmartStateOnly / getSmartInfo build. -/
structure smartInfo where
  serial : Option String := none
  wwn : Option String := none
  luid : Option String := none
  model : Option String := none
  vendor : Option String := none
  firmware : Option String := none
  sizeBytes : Option Int := none
  formFactor : Option String := none
  protocol : Option String := none
  state : String := "unknown"
  temp : Option Int := none
  smartHealth : Option String := none
  powerOnHours : Option Int := none
  reallocated : Option Int := none
  pendingSectors : Option Int := none
deriving DecidableEq, Repr

/-- Raw result of one smartctl invocation: combined output text and whether
the exit status was zero. -/
structure SmartProbeResult where
  output : String := ""
  exitOk : Bool := true
deriving DecidableEq, Repr

/-- The attribute values that the regular-expression section of the full
getSmartInfo read extracts from the tool output.  The extraction itself is
a pure function of the output text and is left abstract. -/
structure SmartAttrs where
  serial : Option String := none
  wwn : Option String := none
  luid : Option String := none
  model : Option String := none
  vendor : Option String := none
  firmware : Option String := none
  sizeBytes : Option Int := none
  formFactor : Option String := none
  protocol : Option String := none
  smartHealth : Option String := none
  temp : Option Int := none
  powerOnHours : Option Int := none
  reallocated : Option Int := none
  pendingSectors : Option Int := none
deriving DecidableEq, Repr

/-- Environment of one GetDriveData call for one device: the cache entries
that may answer the two smartctl probes, and what the probes would return
when actually invoked. -/
structure SmartOracle where
  stateCache : Option smartInfo := none
  fullCache : Option smartInfo := none
  stateProbe : SmartProbeResult := {}
  fullProbe : SmartProbeResult := {}
  fullAttrs : SmartAttrs := {}
deriving Repr

/-- smartctl commands the collector can spawn (the trace alphabet for the
wake-safety claims).  stateOnly is smartctl -i -n standby; fullRead is
smartctl -i -A -H. -/
inductive SmartCmd where
  | stateOnly (device : String)
  | fullRead (device : String)
deriving DecidableEq, Repr

/-- smartctl output contains STANDBY or NOT READY. -/
def hasStandbyIndicator (out : String) : Bool :=
  strContains out "STANDBY" || strContains out "NOT READY"

/-- smartctl output contains No such device or No such file. -/
def hasNoSuchDevice (out : String) : Bool :=
  strContains out "No such device" || strContains out "No such file"

/-- The state classification of getSmartStateOnly (standby checked first;
the missing / I-O-error / other discrimination only on non-zero exit). -/
def classifyStateOnly (r : SmartProbeResult) : smartInfo :=
  if hasStandbyIndicator r.output then { state := "standby" }
  else if !r.exitOk then
    if hasNoSuchDevice r.output then { state := "missing" }
    else if strContains r.output "I/O error" then { state := "failed" }
    else { state := "failed" }
  else { state := "active" }

/-- collector.getSmartStateOnly: cached value, or classify the -n standby
probe; spawning the probe is recorded in the command trace. -/
def getSmartStateOnly (device : String) (o : SmartOracle) : smartInfo × List SmartCmd :=
  match o.stateCache with
  | some i => (i, [])
  | none => (classifyStateOnly o.stateProbe, [SmartCmd.stateOnly device])

/-- collector.getSmartInfo (layered file): the full -i -A -H read.  On a
non-zero exit a standby indicator downgrades to standby with no attribute
data, anything else is failed; on success the record is active with the
parsed attributes. -/
def getSmartInfoFull (device : String) (o : SmartOracle) : smartInfo × List SmartCmd :=
  match o.fullCache with
  | some i => (i, [])
  | none =>
    let info : smartInfo :=
      if !o.fullProbe.exitOk then
        if hasStandbyIndicator o.fullProbe.output then { state := "standby" }
        else { state := "failed" }
      else
        { state := "active"
          serial := o.fullAttrs.serial
          wwn := o.fullAttrs.wwn
          luid := o.fullAttrs.luid
          model := o.fullAttrs.model
          vendor := o.fullAttrs.vendor
          firmware := o.fullAttrs.firmware
          sizeBytes := o.fullAttrs.sizeBytes
          formFactor := o.fullAttrs.formFactor
          protocol := o.fullAttrs.protocol
          smartHealth := o.fullAttrs.smartHealth
          temp := o.fullAttrs.temp
          powerOnHours := o.fullAttrs.powerOnHours
          reallocated := o.fullAttrs.reallocated
          pendingSectors := o.fullAttrs.pendingSectors }
    (info, [SmartCmd.fullRead device])

/-- collector.mergeSmartData: applies the full read result to the record. -/
def mergeSmartData (data : DriveData) (device : String) (o : SmartOracle) :
    DriveData × List SmartCmd :=
  let s := (getSmartInfoFull device o).fst
  let cmds := (getSmartInfoFull device o).snd
  ({ data with
    state := s.state
    temp := s.temp
    smartHealth := s.smartHealth
    powerOnHours := s.powerOnHours
    reallocated := s.reallocated
    pendingSectors := s.pendingSectors
    serial := if s.serial.isSome && data.serial.isNone then s.serial else data.serial
    luid := match s.luid with | some v => some v | none => data.luid
    wwn := if s.wwn.isSome && data.wwn.isNone then s.wwn else data.wwn
    formFactor := match s.formFactor with | some v => some v | none => data.formFactor },
   cmds)

/-- collector.mergeHBAData: roster lookup by upper-cased serial; enclosure
and slot are only filled when still empty. -/
def mergeHBAData (data : DriveData) (serial : String) (sys : SystemData) : DriveData :=
  match lookupMap sys.hbaDevices (strToUpper serial) with
  | none => data
  | some h =>
    { data with
      controllerID := if data.controllerID.isNone then some h.controllerID
        else data.controllerID
      enclosure := if data.enclosure.isNone then some h.enclosureID else data.enclosure
      slot := if data.slot.isNone then some h.slot else data.slot
      deviceID := h.deviceID
      phyNum := h.phyNum
      sasAddress := if h.sasAddress.isSome && data.sasAddress.isNone then h.sasAddress
        else data.sasAddress
      serialVPD := match h.serialVPD with | some v => some v | none => data.serialVPD
      wwn := if h.wwn.isSome && data.wwn.isNone then h.wwn else data.wwn
      sectorSize := match h.sectorSize with | some v => some v | none => data.sectorSize
      driveType := match h.mediaType with | some v => some v | none => data.driveType
      linkSpeed := match h.linkSpeed with | some v => some v | none => data.linkSpeed
      mediaErrors := match h.mediaErrors with | some v => some v | none => data.mediaErrors }

/-- Layers 1 to 2c of GetDriveData: sysfs, udev, lsblk, lsscsi, by-id. -/
def mergePassiveLayers (device : String) (sys : SystemData) : DriveData :=
  let devName := trimPre device "/dev/"
  let d : DriveData := { device := device, state := "unknown" }
  let d := match lookupMap sys.sysfsDevices devName with
    | some s => mergeSysfsData d s
    | none => d
  let d := match lookupMap sys.udevDevices devName with
    | some u => mergeUdevData d u
    | none => d
  let d := match lookupMap sys.lsblkDevices devName with
    | some l => mergeLsblkData d l
    | none => d
  let d := match lookupMap sys.lsscsiDevices device with
    | some l => mergeLsscsiData d l
    | none => d
  match lookupMap sys.byIDLinks device with
  | some b => { d with byIDPath := some b }
  | none => d

/-- The state the gate settles on for a device: the sysfs-derived state when
it is decisive, otherwise the verdict of the state-only SMART probe. -/
def gateState (device : String) (sys : SystemData) (o : SmartOracle) : String :=
  let ds := determineStateFromSysfs (mergePassiveLayers device sys)
  if ds = "unknown" then ((getSmartStateOnly device o).fst).state else ds

/-- Layers 1 to 3 of GetDriveData: the passive merges, the sysfs-derived
state, and (when the device is not already missing) the ZFS and LVM
correlation. -/
def preSmartData (device : String) (sys : SystemData) : DriveData :=
  let devName := trimPre device "/dev/"
  let d := mergePassiveLayers device sys
  let deviceState := determineStateFromSysfs d
  let d := { d with state := deviceState }
  if deviceState ≠ "missing" then
    mergeLVMData (mergeZFSData d devName sys) device sys
  else d

/-- Layer 4 of GetDriveData: the gated smartctl stage.  Only an active
verdict reaches the full attribute read; the standby, missing and failed
verdicts leave the drive untouched. -/
def smartStage (device : String) (d : DriveData) (deviceState : String) (o : SmartOracle) :
    DriveData × List SmartCmd :=
  if deviceState = "active" then
    mergeSmartData d device o
  else if deviceState = "unknown" then
    let sd := (getSmartStateOnly device o).fst
    let c1 := (getSmartStateOnly device o).snd
    let d2 := { d with state := sd.state }
    if sd.state = "active" then
      ((mergeSmartData d2 device o).fst, c1 ++ (mergeSmartData d2 device o).snd)
    else (d2, c1)
  else (d, [])

/-- Layers 5 and 5b of GetDriveData: the HBA roster lookup by serial and the
sysfs enclosure fallback when the roster gave no enclosure. -/
def postSmartData (device : String) (sys : SystemData) (d : DriveData) : DriveData :=
  let devName := trimPre device "/dev/"
  let d := match d.serial with
    | some s => mergeHBAData d s sys
    | none => d
  if d.enclosure.isNone then
    match lookupMap sys.sysfsDevices devName with
    | some s =>
      { d with
        controllerID := match s.enclosureID with | some e => some e | none => d.controllerID
        slot := match s.slot with | some sl => some sl | none => d.slot }
    | none => d
  else d

/-- collector.GetDriveData (layered file): the full fusion pipeline for one
device, returning the fused record and the trace of smartctl commands
spawned on the way. -/
def GetDriveData (device : String) (sys : SystemData) (o : SmartOracle) :
    DriveData × List SmartCmd :=
  let deviceState := determineStateFromSysfs (mergePassiveLayers device sys)
  let stage := smartStage device (preSmartData device sys) deviceState o
  (postSmartData device sys stage.fst, stage.snd)

end Collector

namespace Identify

/-- internal/identify DeviceType. -/
inductive DeviceType where
  | disk | partition | nvmeNS | zfsPool | zfsDataset
  | lvmPV | lvmVG | lvmLV | mdArray | dmDevice | loopDev | rom
deriving DecidableEq, Repr

/-- internal/identify IdentifierType: the matched_as kinds. -/
inductive IdentifierType where
  | devicePath | kernelName | serial | wwn | luid | majMin | scsiAddr
  | nguid | eui64 | partUUID | partLabel | fsUUID | fsLabel | byID | byPath
  | zfsPoolGUID | zfsPoolName | zfsDataGUID | zfsDataName | zfsVdevGUID
  | lvmPVUUID | lvmVGUUID | lvmVGName | lvmLVUUID | lvmLVName | lvmLVPath
  | mdArrUUID | mdName | dmName | dmUUID | symlink | unknown
deriving DecidableEq, Repr

/-- internal/identify DeviceEntity (the fields the index builder reads). -/
structure DeviceEntity where
  type : DeviceType := DeviceType.disk
  devicePath : String := ""
  kernelName : String := ""
  serial : Option String := none
  wwn : Option String := none
  luid : Option String := none
  majMin : Option String := none
  scsiAddr : Option String := none
  nguid : Option String := none
  eui64 : Option String := none
  partUUID : Option String := none
  partLabel : Option String := none
  fsUUID : Option String := none
  fsLabel : Option String := none
  byID : List String := []
  byPath : List String := []
  zfsPoolGUID : Option String := none
  zfsPoolName : Option String := none
  zfsDataGUID : Option String := none
  zfsDataName : Option String := none
  zfsVdevGUID : Option String := none
  lvmPVUUID : Option String := none
  lvmVGUUID : Option String := none
  lvmVGName : Option String := none
  lvmLVUUID : Option String := none
  lvmLVName : Option String := none
  lvmLVPath : Option String := none
  mdArrUUID : Option String := none
  mdName : Option String := none
  dmName : Option String := none
  dmUUID : Option String := none
deriving DecidableEq, Repr

/-- internal/identify DeviceIndex: the entity store plus every reverse map.
Go map writes are modelled by consing in front (lookupMap reads the live
binding). -/
structure DeviceIndex where
  entities : List (String × DeviceEntity) := []
  byKernelName : List (String × String) := []
  bySerial : List (String × String) := []
  byWWN : List (String × String) := []
  byLUID : List (String × String) := []
  byMajMin : List (String × String) := []
  bySCSIAddr : List (String × String) := []
  byNGUID : List (String × String) := []
  byEUI64 : List (String × String) := []
  byPartUUID : List (String × String) := []
  byPartLabel : List (String × String) := []
  byFSUUID : List (String × String) := []
  byFSLabel : List (String × String) := []
  byIDPath : List (String × String) := []
  byPathPath : List (String × String) := []
  byZFSPoolGUID : List (String × String) := []
  byZFSPoolName : List (String × String) := []
  byZFSDataGUID : List (String × String) := []
  byZFSDataName : List (String × String) := []
  byZFSVdevGUID : List (String × String) := []
  byLVMPVUUID : List (String × String) := []
  byLVMVGUUID : List (String × String) := []
  byLVMVGName : List (String × String) := []
  byLVMLVUUID : List (String × String) := []
  byLVMLVName : List (String × String) := []
  byLVMLVPath : List (String × String) := []
  byMDArrUUID : List (String × String) := []
  byMDName : List (String × String) := []
  byDMName : List (String × String) := []
  byDMUUID : List (String × String) := []
  symlinkMap : List (String × String) := []
deriving Repr

/-- Register into a reverse map when the identifier is present. -/
def regOpt (m : List (String × String)) (v : Option String) (dp : String) :
    List (String × String) :=
  match v with
  | some k => (k, dp) :: m
  | none => m

/-- The buildIndexes body for one entity: the device-path key is the entity
map key when the entity has no device path. -/
def addEntityIndexes (idx : DeviceIndex) (key : String) (e : DeviceEntity) : DeviceIndex :=
  let dp := if e.devicePath = "" then key else e.devicePath
  { idx with
    byKernelName := if e.kernelName ≠ "" then (e.kernelName, dp) :: idx.byKernelName
      else idx.byKernelName
    bySerial := regOpt idx.bySerial e.serial dp
    byWWN := regOpt idx.byWWN e.wwn dp
    byLUID := regOpt idx.byLUID e.luid dp
    byMajMin := regOpt idx.byMajMin e.majMin dp
    bySCSIAddr := regOpt idx.bySCSIAddr e.scsiAddr dp
    byNGUID := regOpt idx.byNGUID e.nguid dp
    byEUI64 := regOpt idx.byEUI64 e.eui64 dp
    byPartUUID := regOpt idx.byPartUUID e.partUUID dp
    byPartLabel := regOpt idx.byPartLabel e.partLabel dp
    byFSUUID := regOpt idx.byFSUUID e.fsUUID dp
    byFSLabel := regOpt idx.byFSLabel e.fsLabel dp
    byIDPath := e.byID.foldl (fun m n => (n, dp) :: m) idx.byIDPath
    byPathPath := e.byPath.foldl (fun m n => (n, dp) :: m) idx.byPathPath
    byZFSPoolGUID := regOpt idx.byZFSPoolGUID e.zfsPoolGUID dp
    byZFSPoolName := regOpt idx.byZFSPoolName e.zfsPoolName dp
    byZFSDataGUID := regOpt idx.byZFSDataGUID e.zfsDataGUID dp
    byZFSDataName := regOpt idx.byZFSDataName e.zfsDataName dp
    byZFSVdevGUID := regOpt idx.byZFSVdevGUID e.zfsVdevGUID dp
    byLVMPVUUID := regOpt idx.byLVMPVUUID e.lvmPVUUID dp
    byLVMVGUUID := regOpt idx.byLVMVGUUID e.lvmVGUUID dp
    byLVMVGName := regOpt idx.byLVMVGName e.lvmVGName dp
    byLVMLVUUID := regOpt idx.byLVMLVUUID e.lvmLVUUID dp
    byLVMLVName := regOpt idx.byLVMLVName e.lvmLVName dp
    byLVMLVPath := regOpt idx.byLVMLVPath e.lvmLVPath dp
    byMDArrUUID := regOpt idx.byMDArrUUID e.mdArrUUID dp
    byMDName := regOpt idx.byMDName e.mdName dp
    byDMName := regOpt idx.byDMName e.dmName dp
    byDMUUID := regOpt idx.byDMUUID e.dmUUID dp }

/-- BuildIndex step: start from the collected entity store and symlink map,
then run buildIndexes over every entity. -/
def buildIndexes (entities : List (String × DeviceEntity))
    (symlinkMap : List (String × String)) : DeviceIndex :=
  entities.foldl (fun idx kv => addEntityIndexes idx kv.fst kv.snd)
    { entities := entities, symlinkMap := symlinkMap }

/-- The ordered reverse-index scan of Lookup, exactly in source order. -/
def lookupChain (idx : DeviceIndex) : List (List (String × String) × IdentifierType) :=
  [ (idx.byKernelName, IdentifierType.kernelName)
  , (idx.bySerial, IdentifierType.serial)
  , (idx.byWWN, IdentifierType.wwn)
  , (idx.byLUID, IdentifierType.luid)
  , (idx.byNGUID, IdentifierType.nguid)
  , (idx.byEUI64, IdentifierType.eui64)
  , (idx.byPartUUID, IdentifierType.partUUID)
  , (idx.byFSUUID, IdentifierType.fsUUID)
  , (idx.byPartLabel, IdentifierType.partLabel)
  , (idx.byFSLabel, IdentifierType.fsLabel)
  , (idx.byMajMin, IdentifierType.majMin)
  , (idx.bySCSIAddr, IdentifierType.scsiAddr)
  , (idx.byIDPath, IdentifierType.byID)
  , (idx.byPathPath, IdentifierType.byPath)
  , (idx.byZFSPoolGUID, IdentifierType.zfsPoolGUID)
  , (idx.byZFSPoolName, IdentifierType.zfsPoolName)
  , (idx.byZFSDataGUID, IdentifierType.zfsDataGUID)
  , (idx.byZFSDataName, IdentifierType.zfsDataName)
  , (idx.byZFSVdevGUID, IdentifierType.zfsVdevGUID)
  , (idx.byLVMPVUUID, IdentifierType.lvmPVUUID)
  , (idx.byLVMVGUUID, IdentifierType.lvmVGUUID)
  , (idx.byLVMVGName, IdentifierType.lvmVGName)
  , (idx.byLVMLVUUID, IdentifierType.lvmLVUUID)
  , (idx.byLVMLVName, IdentifierType.lvmLVName)
  , (idx.byLVMLVPath, IdentifierType.lvmLVPath)
  , (idx.byMDArrUUID, IdentifierType.mdArrUUID)
  , (idx.byMDName, IdentifierType.mdName)
  , (idx.byDMName, IdentifierType.dmName)
  , (idx.byDMUUID, IdentifierType.dmUUID) ]

/-- Scan the reverse maps in order; a map hit whose device path has no
entity falls through to the next map, as in the source loop. -/
def firstIndexHit (entities : List (String × DeviceEntity)) (query : String) :
    List (List (String × String) × IdentifierType) → Option (DeviceEntity × IdentifierType)
  | [] => none
  | (m, t) :: rest =>
    match lookupMap m query with
    | some dp =>
      match lookupMap entities dp with
      | some e => some (e, t)
      | none => firstIndexHit entities query rest
    | none => firstIndexHit entities query rest

/-- identify.Lookup: direct entity key, then symlink resolution (modelled
by the resolveSym oracle), then the symlink map, then the reverse maps in
order of the source list.  none models ErrNotFound. -/
def Lookup (idx : DeviceIndex) (resolveSym : String → Option String) (query : String) :
    Option (DeviceEntity × IdentifierType) :=
  match lookupMap idx.entities query with
  | some e => some (e, IdentifierType.devicePath)
  | none =>
    match resolveSym query >>= fun r => lookupMap idx.entities r with
    | some e => some (e, IdentifierType.symlink)
    | none =>
      match lookupMap idx.symlinkMap query >>= fun p => lookupMap idx.entities p with
      | some e => some (e, IdentifierType.symlink)
      | none => firstIndexHit idx.entities query (lookupChain idx)

end Identify

namespace Db

/-- db.ExportedPool: one exported_pools row.  drives_json is modelled by the
parsed member-serial list; timestamps are abstract instants. -/
structure ExportedPool where
  id : Nat := 0
  poolName : String := ""
  exportTimestamp : Nat := 0
  exportReason : String := "spindown"
  memberSerials : List String := []
  importedTimestamp : Option Nat := none
  importStatus : Option String := none
deriving DecidableEq, Repr

/-- db.RecordPoolExport: INSERT INTO exported_pools. -/
def RecordPoolExport (tbl : List ExportedPool) (pool : String) (serials : List String)
    (reason : String) (now : Nat) : List ExportedPool :=
  tbl ++ [{ id := tbl.length, poolName := pool, exportTimestamp := now,
            exportReason := reason, memberSerials := serials }]

/-- Ordered insert for the ORDER BY export_timestamp ASC model. -/
def insertByTs (p : ExportedPool) : List ExportedPool → List ExportedPool
  | [] => [p]
  | q :: rest =>
    if p.exportTimestamp ≤ q.exportTimestamp then p :: q :: rest
    else q :: insertByTs p rest

/-- Insertion sort by export timestamp (the ORDER BY of GetPendingImports). -/
def sortByTs : List ExportedPool → List ExportedPool
  | [] => []
  | p :: rest => insertByTs p (sortByTs rest)

/-- db.GetPendingImports: rows WHERE imported_timestamp IS NULL ORDER BY
export_timestamp ASC. -/
def GetPendingImports (tbl : List ExportedPool) : List ExportedPool :=
  sortByTs (tbl.filter (fun r => r.importedTimestamp.isNone))

/-- db.GetPendingImportsForDrives: the pending rows with at least one member
serial among the given drive serials; empty input short-circuits to none. -/
def GetPendingImportsForDrives (tbl : List ExportedPool) (serials : List String) :
    List ExportedPool :=
  if serials.isEmpty then []
  else (GetPendingImports tbl).filter
    (fun p => p.memberSerials.any (fun s => serials.contains s))

/-- db.MarkPoolImported: UPDATE exported_pools SET imported_timestamp, import
status WHERE pool_name matches AND imported_timestamp IS NULL. -/
def MarkPoolImported (tbl : List ExportedPool) (pool status : String) (now : Nat) :
    List ExportedPool :=
  tbl.map (fun r =>
    if r.poolName == pool && r.importedTimestamp.isNone then
      { r with importedTimestamp := some now, importStatus := some status }
    else r)

end Db

namespace Drive

/-- zfs.PoolDriveMapping. -/
structure PoolDriveMapping where
  poolName : String := ""
  devices : List String := []
  serials : List String := []
deriving DecidableEq, Repr

/-- drive.SpindownOptions. -/
structure SpindownOptions where
  force : Bool := false
  forceAll : Bool := false
deriving DecidableEq, Repr

/-- drive.SpinupOptions. -/
structure SpinupOptions where
  noImport : Bool := false
deriving DecidableEq, Repr

/-- The external power/ZFS commands the controller issues (the trace
alphabet of the spindown and spinup state machines). -/
inductive SpinAction where
  | exportPool (pool : String)
  | stop (device : String)
  | start (device : String)
  | poolImport (pool : String)
  | markImported (pool : String) (status : String)
deriving DecidableEq, Repr

/-- Outcome of the SpindownWithZFS pool loop: the command trace, the
exported pool names, the skip-set devices, the abort flag, and the updated
exported_pools table. -/
structure ExportLoopResult where
  trace : List SpinAction := []
  exported : List String := []
  skipped : List String := []
  aborted : Bool := false
  table : List Db.ExportedPool := []
deriving DecidableEq, Repr

/-- The pool loop of SpindownWithZFS (step 5): consent per pool, zpool
export, database record; a failed export aborts the whole loop (os.Exit 1). -/
def exportLoop (opts : SpindownOptions) (consent exportOk : String → Bool)
    (dbAvail : Bool) (now : Nat) :
    List PoolDriveMapping → List Db.ExportedPool → ExportLoopResult
  | [], tbl => { table := tbl }
  | p :: rest, tbl =>
    if opts.forceAll || consent p.poolName then
      if exportOk p.poolName then
        let r := exportLoop opts consent exportOk dbAvail now rest
          (if dbAvail then Db.RecordPoolExport tbl p.poolName p.serials "spindown" now
           else tbl)
        { r with
          trace := SpinAction.exportPool p.poolName :: r.trace
          exported := p.poolName :: r.exported }
      else
        { trace := [SpinAction.exportPool p.poolName], aborted := true, table := tbl }
    else
      let r := exportLoop opts consent exportOk dbAvail now rest tbl
      { r with skipped := p.devices ++ r.skipped }

/-- drive.SpindownWithZFS after target resolution: drives is the resolved
target list, pools the ZFS membership analysis result, consent the operator
answers, exportOk / analyzeOk the external tool outcomes.  Returns the
command trace, the final exported_pools table, and the exit code. -/
def SpindownWithZFS (drives : List String) (opts : SpindownOptions)
    (analyzeOk : Bool) (pools : List PoolDriveMapping)
    (consent exportOk : String → Bool) (dbAvail : Bool)
    (tbl : List Db.ExportedPool) (now : Nat) :
    List SpinAction × List Db.ExportedPool × Nat :=
  if drives.isEmpty then ([], tbl, 0)
  else if opts.force then (drives.map SpinAction.stop, tbl, 0)
  else if !analyzeOk then (drives.map SpinAction.stop, tbl, 0)
  else
    let r := exportLoop opts consent exportOk dbAvail now pools tbl
    if r.aborted then (r.trace, r.table, 1)
    else
      let toSpin := drives.filter (fun d => !(r.skipped.contains d))
      (r.trace ++ toSpin.map SpinAction.stop, r.table, 0)

/-- The pool loop of SpinupWithZFS (step 8): import each pending pool; on
failure mark the record failed and continue, on success mark success. -/
def impLoop (impOk : String → Bool) (now : Nat) :
    List Db.ExportedPool → List Db.ExportedPool → List SpinAction × List Db.ExportedPool
  | [], tbl => ([], tbl)
  | p :: rest, tbl =>
    if impOk p.poolName then
      (SpinAction.poolImport p.poolName :: SpinAction.markImported p.poolName "success" ::
          (impLoop impOk now rest (Db.MarkPoolImported tbl p.poolName "success" now)).fst,
        (impLoop impOk now rest (Db.MarkPoolImported tbl p.poolName "success" now)).snd)
    else
      (SpinAction.poolImport p.poolName :: SpinAction.markImported p.poolName "failed" ::
          (impLoop impOk now rest (Db.MarkPoolImported tbl p.poolName "failed" now)).fst,
        (impLoop impOk now rest (Db.MarkPoolImported tbl p.poolName "failed" now)).snd)

/-- drive.SpinupWithZFS after target resolution: start every drive, then
(unless no_import, and only with a database) resolve the pending exports
that intersect the spun-up serials and run the import loop. -/
def SpinupWithZFS (drives : List String) (opts : SpinupOptions)
    (serialOf : String → String) (impOk : String → Bool) (dbAvail : Bool)
    (tbl : List Db.ExportedPool) (now : Nat) :
    List SpinAction × List Db.ExportedPool :=
  if drives.isEmpty then ([], tbl)
  else
    let startTr := drives.map SpinAction.start
    if opts.noImport then (startTr, tbl)
    else if !dbAvail then (startTr, tbl)
    else
      let serials := (drives.map serialOf).filter (fun s => s ≠ "")
      let pending := Db.GetPendingImportsForDrives tbl serials
      (startTr ++ (impLoop impOk now pending tbl).fst, (impLoop impOk now pending tbl).snd)

end Drive

namespace Ses

/-- LED commands issued through sg_ses. -/
inductive LedAction where
  | ledOn
  | ledOff
deriving DecidableEq, Repr

/-- How the timed wait ends: the duration elapses, or an interrupt signal
(SIGINT / SIGTERM) or context cancellation arrives first. -/
inductive WaitOutcome where
  | timeout
  | interrupted
deriving DecidableEq, Repr

/-- ses.LocateWithTimeout: LED on, wait on the select (either arm), then
always issue LED off; an on failure returns before any wait.  Returns the
LED command trace and whether the call returned without error. -/
def LocateWithTimeout (onOk offOk : Bool) (w : WaitOutcome) : List LedAction × Bool :=
  if !onOk then ([LedAction.ledOn], false)
  else
    match w with
    | WaitOutcome.timeout =>
      if offOk then ([LedAction.ledOn, LedAction.ledOff], true)
      else ([LedAction.ledOn, LedAction.ledOff], false)
    | WaitOutcome.interrupted =>
      if offOk then ([LedAction.ledOn, LedAction.ledOff], true)
      else ([LedAction.ledOn, LedAction.ledOff], false)

/-- The timed (default) mode of cmd runLocate after resolution: turn the
LED on (exit 1 on failure), wait for the timeout context or a signal, then
turn the LED off on both select arms.  Returns the LED command trace, the
stop reason, and the process exit code. -/
def runLocateTimed (onOk offOk : Bool) (w : WaitOutcome) : List LedAction × String × Nat :=
  if !onOk then ([LedAction.ledOn], "", 1)
  else
    let stopReason :=
      match w with
      | WaitOutcome.timeout => "timeout"
      | WaitOutcome.interrupted => "interrupted"
    if !offOk then ([LedAction.ledOn, LedAction.ledOff], stopReason, 1)
    else ([LedAction.ledOn, LedAction.ledOff], stopReason, 0)

end Ses

namespace Drive

/-- Is the action a SCSI stop command. -/
def isStop : SpinAction → Bool
  | SpinAction.stop _ => true
  | _ => false

/-- Is the action a zpool export. -/
def isExport : SpinAction → Bool
  | SpinAction.exportPool _ => true
  | _ => false

/-- Is the action a zpool import. -/
def isPoolImport : SpinAction → Bool
  | SpinAction.poolImport _ => true
  | _ => false

/-- Once a stop command has been issued, no export follows in the trace. -/
def noExportAfterStop : List SpinAction → Bool
  | [] => true
  | a :: rest =>
    if isStop a then rest.all (fun b => !isExport b) else noExportAfterStop rest

/-- The pools imported along a trace, in order. -/
def importsOf (tr : List SpinAction) : List String :=
  tr.filterMap (fun a =>
    match a with
    | SpinAction.poolImport p => some p
    | _ => none)

/-- The record-marking actions along a trace, in order. -/
def marksOf (tr : List SpinAction) : List (String × String) :=
  tr.filterMap (fun a =>
    match a with
    | SpinAction.markImported p s => some (p, s)
    | _ => none)

end Drive

namespace Scenario

open Collector Identify Drive Db

/-- Scenario A entities: the pool tank (keyed zfs:pool:tank), its member
disk, and a partition carrying the filesystem label tank. -/
def entitiesA : List (String × DeviceEntity) :=
  [ ("zfs:pool:tank",
      { type := DeviceType.zfsPool
        zfsPoolName := some "tank"
        zfsPoolGUID := some "14707061191158689053" })
  , ("/dev/sda",
      { type := DeviceType.disk
        devicePath := "/dev/sda"
        kernelName := "sda"
        serial := some "ZA1DKJT7"
        zfsPoolName := some "tank"
        zfsPoolGUID := some "14707061191158689053"
        zfsVdevGUID := some "9501103619015499568" })
  , ("/dev/sda1",
      { type := DeviceType.partition
        devicePath := "/dev/sda1"
        kernelName := "sda1"
        partUUID := some "0b1f3f1a-01"
        fsLabel := some "tank" }) ]

/-- Scenario A index, built by the index builder from the entities. -/
def indexA : DeviceIndex := buildIndexes entitiesA []

/-- The fs-label partition entity of Scenario A. -/
def partA : DeviceEntity :=
  { type := DeviceType.partition
    devicePath := "/dev/sda1"
    kernelName := "sda1"
    partUUID := some "0b1f3f1a-01"
    fsLabel := some "tank" }

/-- A snapshot in which /dev/sdq has vanished from sysfs but is still in the
cached lsblk, zpool and HBA data (the drive disappeared after the snapshot
layers were cached). -/
def sysMissing : SystemData :=
  { lsblkDevices := [("sdq", { serial := some "ZA1DKJT7" })]
    zpoolVdevs := [("g1", { poolName := "tank", vdevGUID := "g1",
                            devicePath := some "/dev/sdq1" })]
    hbaDevices := [("ZA1DKJT7", { controllerID := "c0", enclosureID := 2, slot := 5,
                                  mediaErrors := some 7 })] }

/-- The probe oracle for the vanished drive: the state-only probe fails with
No such device. -/
def oracleMissing : SmartOracle :=
  { stateProbe := { output := "Smartctl open device failed: No such device", exitOk := false } }

/-- A snapshot in which sysfs and the HBA roster disagree about the slot of
/dev/sda: the sysfs enclosure hint says slot 3, the roster says slot 9 in
enclosure 2. -/
def sysSlotClash : SystemData :=
  { sysfsDevices := [("sda", { serial := some "S1", slot := some 3,
                               enclosureID := some "10:0:12:0",
                               state := some "running" })]
    hbaDevices := [("S1", { controllerID := "c0", enclosureID := 2, slot := 9 })] }

/-- An oracle for an active, healthy drive. -/
def oracleActive : SmartOracle :=
  { stateProbe := { output := "Device is in ACTIVE or IDLE mode", exitOk := true }
    fullProbe := { output := "SMART overall-health self-assessment test result: PASSED",
                   exitOk := true }
    fullAttrs := { temp := some 38 } }

/-- A snapshot whose only fact about /dev/sdb is the sysfs state running. -/
def sysRunning : SystemData :=
  { sysfsDevices := [("sdb", { state := some "running" })] }

/-- The probe oracle of a drive that answers the state-only probe with a
standby refusal. -/
def oracleStandby : SmartOracle :=
  { stateProbe := { output := "Device is in STANDBY mode, exit(2)", exitOk := false } }

/-- An oracle whose gate says active but whose full read comes back with a
standby refusal: the post-gate race of claim C9. -/
def oracleRace : SmartOracle :=
  { stateProbe := { output := "Device is in ACTIVE or IDLE mode", exitOk := true }
    fullProbe := { output := "Device is in STANDBY mode, exit(2)", exitOk := false } }

/-- The partially-fused record of the slot-clash drive right before the HBA
merge: sysfs already delivered slot 3. -/
def driveC8 : DriveData :=
  { device := "/dev/sda", serial := some "S1", slot := some 3,
    controllerID := some "10:0:12:0", state := "unknown" }

/-- The sysfs record of the slot-clash drive. -/
def sysfsC8 : SysfsDevice :=
  { serial := some "S1", slot := some 3, enclosureID := some "10:0:12:0",
    state := some "running" }

/-- Scenario F pools: tankA exports cleanly, tankB will fail. -/
def poolsF : List PoolDriveMapping :=
  [ { poolName := "tankA", devices := ["/dev/sda", "/dev/sdb"],
      serials := ["ZA1DKJT7", "ZA1DKJT8"] }
  , { poolName := "tankB", devices := ["/dev/sdc"], serials := ["WCK5NWKQ"] } ]

/-- Scenario D table: one pending exported_pools row for tank. -/
def tableD : List ExportedPool :=
  [ { id := 0, poolName := "tank", exportTimestamp := 10,
      memberSerials := ["ZA1DKJT7", "ZA1DKJT8"] } ]

/-- The serial oracle of Scenario D. -/
def serialOfD : String → String := fun d =>
  if d = "/dev/sda" then "ZA1DKJT7"
  else if d = "/dev/sdb" then "ZA1DKJT8"
  else ""

/-- A table with two pending rows for tank and one for another pool: the
frame-effect demonstration for MarkPoolImported. -/
def tableTwoTank : List ExportedPool :=
  [ { id := 0, poolName := "tank", exportTimestamp := 1,
      memberSerials := ["ZA1DKJT7"] }
  , { id := 1, poolName := "tank", exportTimestamp := 2,
      memberSerials := ["ZA1DKJT8"] }
  , { id := 2, poolName := "dozer", exportTimestamp := 3,
      memberSerials := ["WCK5NWKQ"] } ]

end Scenario

end JbodGod

/-!
## Supporting lemmas

Projection facts about the merge layers, shared by the claim theorems.
-/

namespace JbodGod
open Collector

lemma mergeSysfsData_temp (d : DriveData) (s : SysfsDevice) :
    (mergeSysfsData d s).temp = d.temp := rfl

lemma mergeSysfsData_smartHealth (d : DriveData) (s : SysfsDevice) :
    (mergeSysfsData d s).smartHealth = d.smartHealth := rfl

lemma mergeSysfsData_powerOnHours (d : DriveData) (s : SysfsDevice) :
    (mergeSysfsData d s).powerOnHours = d.powerOnHours := rfl

lemma mergeSysfsData_reallocated (d : DriveData) (s : SysfsDevice) :
    (mergeSysfsData d s).reallocated = d.reallocated := rfl

lemma mergeSysfsData_pendingSectors (d : DriveData) (s : SysfsDevice) :
    (mergeSysfsData d s).pendingSectors = d.pendingSectors := rfl

lemma mergeSysfsData_enclosure (d : DriveData) (s : SysfsDevice) :
    (mergeSysfsData d s).enclosure = d.enclosure := rfl

lemma mergeSysfsData_slot (d : DriveData) (s : SysfsDevice) :
    (mergeSysfsData d s).slot = fill d.slot s.slot := rfl

lemma mergeSysfsData_serial (d : DriveData) (s : SysfsDevice) :
    (mergeSysfsData d s).serial = fill d.serial s.serial := rfl

lemma mergeSysfsData_wwn (d : DriveData) (s : SysfsDevice) :
    (mergeSysfsData d s).wwn = fill d.wwn s.wwn := rfl

lemma mergeSysfsData_model (d : DriveData) (s : SysfsDevice) :
    (mergeSysfsData d s).model = fill d.model s.model := rfl

lemma mergeSysfsData_vendor (d : DriveData) (s : SysfsDevice) :
    (mergeSysfsData d s).vendor = fill d.vendor s.vendor := rfl

lemma mergeSysfsData_state_eq (d : DriveData) (s : SysfsDevice) :
    (mergeSysfsData d s).state =
      (match s.state with
       | none => d.state
       | some st =>
         if st = "running" then "unknown"
         else if st = "offline" || st = "blocked" then "failed"
         else "unknown") := rfl

lemma mergeSysfsData_state_or (d : DriveData) (s : SysfsDevice) :
    (mergeSysfsData d s).state = d.state ∨ (mergeSysfsData d s).state = "unknown"
      ∨ (mergeSysfsData d s).state = "failed" := by
  rw [mergeSysfsData_state_eq]
  cases s.state with
  | none => exact Or.inl rfl
  | some st =>
    by_cases h1 : st = "running"
    · simp [h1]
    · by_cases h2 : st = "offline" || st = "blocked" <;> simp [h1, h2]

lemma mergeSysfsData_state_running (d : DriveData) (s : SysfsDevice)
    (h : s.state = some "running") : (mergeSysfsData d s).state = "unknown" := by
  rw [mergeSysfsData_state_eq, h]
  simp

lemma mergeSysfsData_state_failed (d : DriveData) (s : SysfsDevice) (st : String)
    (h : s.state = some st) (hor : st = "offline" ∨ st = "blocked") :
    (mergeSysfsData d s).state = "failed" := by
  rw [mergeSysfsData_state_eq, h]
  rcases hor with h2 | h2 <;> subst h2 <;> simp

lemma mergeSysfsData_state_none (d : DriveData) (s : SysfsDevice)
    (h : s.state = none) : (mergeSysfsData d s).state = d.state := by
  rw [mergeSysfsData_state_eq, h]

lemma mergeSysfsData_controllerID_eq (d : DriveData) (s : SysfsDevice) :
    (mergeSysfsData d s).controllerID =
      (match s.enclosureID with | some e => some e | none => d.controllerID) := rfl

lemma mergeSysfsData_controllerID (d : DriveData) (s : SysfsDevice)
    (e : String) (h : s.enclosureID = some e) :
    (mergeSysfsData d s).controllerID = some e := by
  rw [mergeSysfsData_controllerID_eq, h]

lemma mergeUdevData_temp (d : DriveData) (u : UdevDevice) :
    (mergeUdevData d u).temp = d.temp := rfl

lemma mergeUdevData_smartHealth (d : DriveData) (u : UdevDevice) :
    (mergeUdevData d u).smartHealth = d.smartHealth := rfl

lemma mergeUdevData_powerOnHours (d : DriveData) (u : UdevDevice) :
    (mergeUdevData d u).powerOnHours = d.powerOnHours := rfl

lemma mergeUdevData_reallocated (d : DriveData) (u : UdevDevice) :
    (mergeUdevData d u).reallocated = d.reallocated := rfl

lemma mergeUdevData_pendingSectors (d : DriveData) (u : UdevDevice) :
    (mergeUdevData d u).pendingSectors = d.pendingSectors := rfl

lemma mergeUdevData_state (d : DriveData) (u : UdevDevice) :
    (mergeUdevData d u).state = d.state := rfl

lemma mergeUdevData_slot (d : DriveData) (u : UdevDevice) :
    (mergeUdevData d u).slot = d.slot := rfl

lemma mergeUdevData_enclosure (d : DriveData) (u : UdevDevice) :
    (mergeUdevData d u).enclosure = d.enclosure := rfl

lemma mergeLsblkData_temp (d : DriveData) (l : LsblkDevice) :
    (mergeLsblkData d l).temp = d.temp := rfl

lemma mergeLsblkData_smartHealth (d : DriveData) (l : LsblkDevice) :
    (mergeLsblkData d l).smartHealth = d.smartHealth := rfl

lemma mergeLsblkData_powerOnHours (d : DriveData) (l : LsblkDevice) :
    (mergeLsblkData d l).powerOnHours = d.powerOnHours := rfl

lemma mergeLsblkData_reallocated (d : DriveData) (l : LsblkDevice) :
    (mergeLsblkData d l).reallocated = d.reallocated := rfl

lemma mergeLsblkData_pendingSectors (d : DriveData) (l : LsblkDevice) :
    (mergeLsblkData d l).pendingSectors = d.pendingSectors := rfl

lemma mergeLsblkData_state (d : DriveData) (l : LsblkDevice) :
    (mergeLsblkData d l).state = d.state := rfl

lemma mergeLsblkData_slot (d : DriveData) (l : LsblkDevice) :
    (mergeLsblkData d l).slot = d.slot := rfl

lemma mergeLsblkData_enclosure (d : DriveData) (l : LsblkDevice) :
    (mergeLsblkData d l).enclosure = d.enclosure := rfl

lemma mergeLsscsiData_temp (d : DriveData) (l : LsscsiDevice) :
    (mergeLsscsiData d l).temp = d.temp := rfl

lemma mergeLsscsiData_smartHealth (d : DriveData) (l : LsscsiDevice) :
    (mergeLsscsiData d l).smartHealth = d.smartHealth := rfl

lemma mergeLsscsiData_powerOnHours (d : DriveData) (l : LsscsiDevice) :
    (mergeLsscsiData d l).powerOnHours = d.powerOnHours := rfl

lemma mergeLsscsiData_reallocated (d : DriveData) (l : LsscsiDevice) :
    (mergeLsscsiData d l).reallocated = d.reallocated := rfl

lemma mergeLsscsiData_pendingSectors (d : DriveData) (l : LsscsiDevice) :
    (mergeLsscsiData d l).pendingSectors = d.pendingSectors := rfl

lemma mergeLsscsiData_state (d : DriveData) (l : LsscsiDevice) :
    (mergeLsscsiData d l).state = d.state := rfl

lemma mergeLsscsiData_slot (d : DriveData) (l : LsscsiDevice) :
    (mergeLsscsiData d l).slot = d.slot := rfl

lemma mergeLsscsiData_enclosure (d : DriveData) (l : LsscsiDevice) :
    (mergeLsscsiData d l).enclosure = d.enclosure := rfl

lemma mergeZFSData_temp (d : DriveData) (devName : String) (sys : SystemData) :
    (mergeZFSData d devName sys).temp = d.temp := by
  unfold mergeZFSData
  split <;> rfl

lemma mergeZFSData_smartHealth (d : DriveData) (devName : String) (sys : SystemData) :
    (mergeZFSData d devName sys).smartHealth = d.smartHealth := by
  unfold mergeZFSData
  split <;> rfl

lemma mergeZFSData_powerOnHours (d : DriveData) (devName : String) (sys : SystemData) :
    (mergeZFSData d devName sys).powerOnHours = d.powerOnHours := by
  unfold mergeZFSData
  split <;> rfl

lemma mergeZFSData_reallocated (d : DriveData) (devName : String) (sys : SystemData) :
    (mergeZFSData d devName sys).reallocated = d.reallocated := by
  unfold mergeZFSData
  split <;> rfl

lemma mergeZFSData_pendingSectors (d : DriveData) (devName : String) (sys : SystemData) :
    (mergeZFSData d devName sys).pendingSectors = d.pendingSectors := by
  unfold mergeZFSData
  split <;> rfl

lemma mergeZFSData_state (d : DriveData) (devName : String) (sys : SystemData) :
    (mergeZFSData d devName sys).state = d.state := by
  unfold mergeZFSData
  split <;> rfl

lemma mergeZFSData_slot (d : DriveData) (devName : String) (sys : SystemData) :
    (mergeZFSData d devName sys).slot = d.slot := by
  unfold mergeZFSData
  split <;> rfl

lemma mergeZFSData_enclosure (d : DriveData) (devName : String) (sys : SystemData) :
    (mergeZFSData d devName sys).enclosure = d.enclosure := by
  unfold mergeZFSData
  split <;> rfl

lemma mergeLVMData_temp (d : DriveData) (device : String) (sys : SystemData) :
    (mergeLVMData d device sys).temp = d.temp := by
  unfold mergeLVMData
  split <;> rfl

lemma mergeLVMData_smartHealth (d : DriveData) (device : String) (sys : SystemData) :
    (mergeLVMData d device sys).smartHealth = d.smartHealth := by
  unfold mergeLVMData
  split <;> rfl

lemma mergeLVMData_powerOnHours (d : DriveData) (device : String) (sys : SystemData) :
    (mergeLVMData d device sys).powerOnHours = d.powerOnHours := by
  unfold mergeLVMData
  split <;> rfl

lemma mergeLVMData_reallocated (d : DriveData) (device : String) (sys : SystemData) :
    (mergeLVMData d device sys).reallocated = d.reallocated := by
  unfold mergeLVMData
  split <;> rfl

lemma mergeLVMData_pendingSectors (d : DriveData) (device : String) (sys : SystemData) :
    (mergeLVMData d device sys).pendingSectors = d.pendingSectors := by
  unfold mergeLVMData
  split <;> rfl

lemma mergeLVMData_state (d : DriveData) (device : String) (sys : SystemData) :
    (mergeLVMData d device sys).state = d.state := by
  unfold mergeLVMData
  split <;> rfl

lemma mergeLVMData_slot (d : DriveData) (device : String) (sys : SystemData) :
    (mergeLVMData d device sys).slot = d.slot := by
  unfold mergeLVMData
  split <;> rfl

lemma mergeLVMData_enclosure (d : DriveData) (device : String) (sys : SystemData) :
    (mergeLVMData d device sys).enclosure = d.enclosure := by
  unfold mergeLVMData
  split <;> rfl

lemma mergeHBAData_temp (d : DriveData) (serial : String) (sys : SystemData) :
    (mergeHBAData d serial sys).temp = d.temp := by
  unfold mergeHBAData
  split <;> rfl

lemma mergeHBAData_smartHealth (d : DriveData) (serial : String) (sys : SystemData) :
    (mergeHBAData d serial sys).smartHealth = d.smartHealth := by
  unfold mergeHBAData
  split <;> rfl

lemma mergeHBAData_powerOnHours (d : DriveData) (serial : String) (sys : SystemData) :
    (mergeHBAData d serial sys).powerOnHours = d.powerOnHours := by
  unfold mergeHBAData
  split <;> rfl

lemma mergeHBAData_reallocated (d : DriveData) (serial : String) (sys : SystemData) :
    (mergeHBAData d serial sys).reallocated = d.reallocated := by
  unfold mergeHBAData
  split <;> rfl

lemma mergeHBAData_pendingSectors (d : DriveData) (serial : String) (sys : SystemData) :
    (mergeHBAData d serial sys).pendingSectors = d.pendingSectors := by
  unfold mergeHBAData
  split <;> rfl

lemma mergeHBAData_state (d : DriveData) (serial : String) (sys : SystemData) :
    (mergeHBAData d serial sys).state = d.state := by
  unfold mergeHBAData
  split <;> rfl

lemma mergeHBAData_slot (d : DriveData) (serial : String) (sys : SystemData)
    (h : HBADevice) (hl : lookupMap sys.hbaDevices (strToUpper serial) = some h) :
    (mergeHBAData d serial sys).slot = fill d.slot (some h.slot) := by
  unfold mergeHBAData
  rw [hl]
  cases hd : d.slot <;> simp [fill, hd]

lemma mergeHBAData_enclosure (d : DriveData) (serial : String) (sys : SystemData)
    (h : HBADevice) (hl : lookupMap sys.hbaDevices (strToUpper serial) = some h) :
    (mergeHBAData d serial sys).enclosure = fill d.enclosure (some h.enclosureID) := by
  unfold mergeHBAData
  rw [hl]
  cases hd : d.enclosure <;> simp [fill, hd]

lemma mergeHBAData_wwn (d : DriveData) (serial : String) (sys : SystemData)
    (h : HBADevice) (hl : lookupMap sys.hbaDevices (strToUpper serial) = some h) :
    (mergeHBAData d serial sys).wwn = fill d.wwn h.wwn := by
  unfold mergeHBAData
  rw [hl]
  cases hd : d.wwn <;> cases hw : h.wwn <;> simp [fill, hd, hw]

lemma mergeHBAData_sasAddress (d : DriveData) (serial : String) (sys : SystemData)
    (h : HBADevice) (hl : lookupMap sys.hbaDevices (strToUpper serial) = some h) :
    (mergeHBAData d serial sys).sasAddress = fill d.sasAddress h.sasAddress := by
  unfold mergeHBAData
  rw [hl]
  cases hd : d.sasAddress <;> cases hw : h.sasAddress <;> simp [fill, hd, hw]

end JbodGod

namespace JbodGod
open Collector

lemma mergePassiveLayers_temp (device : String) (sys : SystemData) :
    (mergePassiveLayers device sys).temp = none := by
  unfold mergePassiveLayers
  dsimp only
  cases h1 : lookupMap sys.sysfsDevices (trimPre device "/dev/") <;>
    cases h2 : lookupMap sys.udevDevices (trimPre device "/dev/") <;>
      cases h3 : lookupMap sys.lsblkDevices (trimPre device "/dev/") <;>
        cases h4 : lookupMap sys.lsscsiDevices device <;>
          cases h5 : lookupMap sys.byIDLinks device <;>
            simp [mergeSysfsData_temp, mergeUdevData_temp, mergeLsblkData_temp, mergeLsscsiData_temp]

lemma mergePassiveLayers_smartHealth (device : String) (sys : SystemData) :
    (mergePassiveLayers device sys).smartHealth = none := by
  unfold mergePassiveLayers
  dsimp only
  cases h1 : lookupMap sys.sysfsDevices (trimPre device "/dev/") <;>
    cases h2 : lookupMap sys.udevDevices (trimPre device "/dev/") <;>
      cases h3 : lookupMap sys.lsblkDevices (trimPre device "/dev/") <;>
        cases h4 : lookupMap sys.lsscsiDevices device <;>
          cases h5 : lookupMap sys.byIDLinks device <;>
            simp [mergeSysfsData_smartHealth, mergeUdevData_smartHealth, mergeLsblkData_smartHealth, mergeLsscsiData_smartHealth]

lemma mergePassiveLayers_powerOnHours (device : String) (sys : SystemData) :
    (mergePassiveLayers device sys).powerOnHours = none := by
  unfold mergePassiveLayers
  dsimp only
  cases h1 : lookupMap sys.sysfsDevices (trimPre device "/dev/") <;>
    cases h2 : lookupMap sys.udevDevices (trimPre device "/dev/") <;>
      cases h3 : lookupMap sys.lsblkDevices (trimPre device "/dev/") <;>
        cases h4 : lookupMap sys.lsscsiDevices device <;>
          cases h5 : lookupMap sys.byIDLinks device <;>
            simp [mergeSysfsData_powerOnHours, mergeUdevData_powerOnHours, mergeLsblkData_powerOnHours, mergeLsscsiData_powerOnHours]

lemma mergePassiveLayers_reallocated (device : String) (sys : SystemData) :
    (mergePassiveLayers device sys).reallocated = none := by
  unfold mergePassiveLayers
  dsimp only
  cases h1 : lookupMap sys.sysfsDevices (trimPre device "/dev/") <;>
    cases h2 : lookupMap sys.udevDevices (trimPre device "/dev/") <;>
      cases h3 : lookupMap sys.lsblkDevices (trimPre device "/dev/") <;>
        cases h4 : lookupMap sys.lsscsiDevices device <;>
          cases h5 : lookupMap sys.byIDLinks device <;>
            simp [mergeSysfsData_reallocated, mergeUdevData_reallocated, mergeLsblkData_reallocated, mergeLsscsiData_reallocated]

lemma mergePassiveLayers_pendingSectors (device : String) (sys : SystemData) :
    (mergePassiveLayers device sys).pendingSectors = none := by
  unfold mergePassiveLayers
  dsimp only
  cases h1 : lookupMap sys.sysfsDevices (trimPre device "/dev/") <;>
    cases h2 : lookupMap sys.udevDevices (trimPre device "/dev/") <;>
      cases h3 : lookupMap sys.lsblkDevices (trimPre device "/dev/") <;>
        cases h4 : lookupMap sys.lsscsiDevices device <;>
          cases h5 : lookupMap sys.byIDLinks device <;>
            simp [mergeSysfsData_pendingSectors, mergeUdevData_pendingSectors, mergeLsblkData_pendingSectors, mergeLsscsiData_pendingSectors]

lemma mergePassiveLayers_state_eq (device : String) (sys : SystemData) :
    (mergePassiveLayers device sys).state =
      (match lookupMap sys.sysfsDevices (trimPre device "/dev/") with
       | none => "unknown"
       | some s =>
         match s.state with
         | none => "unknown"
         | some st =>
           if st = "running" then "unknown"
           else if st = "offline" || st = "blocked" then "failed"
           else "unknown") := by
  unfold mergePassiveLayers
  dsimp only
  cases h1 : lookupMap sys.sysfsDevices (trimPre device "/dev/") <;>
    cases h2 : lookupMap sys.udevDevices (trimPre device "/dev/") <;>
      cases h3 : lookupMap sys.lsblkDevices (trimPre device "/dev/") <;>
        cases h4 : lookupMap sys.lsscsiDevices device <;>
          cases h5 : lookupMap sys.byIDLinks device <;>
            simp [mergeUdevData_state, mergeLsblkData_state, mergeLsscsiData_state,
              mergeSysfsData_state_eq]

lemma mergePassiveLayers_state_or (device : String) (sys : SystemData) :
    (mergePassiveLayers device sys).state = "unknown"
    ∨ (mergePassiveLayers device sys).state = "failed" := by
  rw [mergePassiveLayers_state_eq]
  cases h1 : lookupMap sys.sysfsDevices (trimPre device "/dev/") with
  | none => exact Or.inl rfl
  | some s =>
    dsimp only
    cases h2 : s.state with
    | none => exact Or.inl rfl
    | some st =>
      dsimp only
      by_cases ha : st = "running"
      · simp [ha]
      · by_cases hb : st = "offline" || st = "blocked" <;> simp [ha, hb]

lemma determineState_or (device : String) (sys : SystemData) :
    determineStateFromSysfs (mergePassiveLayers device sys) = "unknown"
    ∨ determineStateFromSysfs (mergePassiveLayers device sys) = "failed" := by
  rcases mergePassiveLayers_state_or device sys with h | h <;>
    simp [determineStateFromSysfs, h]

lemma preSmartData_state (device : String) (sys : SystemData) :
    (preSmartData device sys).state =
      determineStateFromSysfs (mergePassiveLayers device sys) := by
  unfold preSmartData
  dsimp only
  split <;> simp [mergeLVMData_state, mergeZFSData_state]

lemma preSmartData_temp (device : String) (sys : SystemData) :
    (preSmartData device sys).temp = none := by
  unfold preSmartData
  dsimp only
  split <;>
    simp [mergeLVMData_temp, mergeZFSData_temp, mergePassiveLayers_temp]

lemma preSmartData_smartHealth (device : String) (sys : SystemData) :
    (preSmartData device sys).smartHealth = none := by
  unfold preSmartData
  dsimp only
  split <;>
    simp [mergeLVMData_smartHealth, mergeZFSData_smartHealth, mergePassiveLayers_smartHealth]

lemma preSmartData_powerOnHours (device : String) (sys : SystemData) :
    (preSmartData device sys).powerOnHours = none := by
  unfold preSmartData
  dsimp only
  split <;>
    simp [mergeLVMData_powerOnHours, mergeZFSData_powerOnHours, mergePassiveLayers_powerOnHours]

lemma preSmartData_reallocated (device : String) (sys : SystemData) :
    (preSmartData device sys).reallocated = none := by
  unfold preSmartData
  dsimp only
  split <;>
    simp [mergeLVMData_reallocated, mergeZFSData_reallocated, mergePassiveLayers_reallocated]

lemma preSmartData_pendingSectors (device : String) (sys : SystemData) :
    (preSmartData device sys).pendingSectors = none := by
  unfold preSmartData
  dsimp only
  split <;>
    simp [mergeLVMData_pendingSectors, mergeZFSData_pendingSectors, mergePassiveLayers_pendingSectors]

lemma postSmartData_state (device : String) (sys : SystemData) (d : DriveData) :
    (postSmartData device sys d).state = d.state := by
  unfold postSmartData
  dsimp only
  cases hs : d.serial <;> (repeat' split) <;> simp [mergeHBAData_state]

lemma postSmartData_temp (device : String) (sys : SystemData) (d : DriveData) :
    (postSmartData device sys d).temp = d.temp := by
  unfold postSmartData
  dsimp only
  cases hs : d.serial <;> (repeat' split) <;> simp [mergeHBAData_temp]

lemma postSmartData_smartHealth (device : String) (sys : SystemData) (d : DriveData) :
    (postSmartData device sys d).smartHealth = d.smartHealth := by
  unfold postSmartData
  dsimp only
  cases hs : d.serial <;> (repeat' split) <;> simp [mergeHBAData_smartHealth]

lemma postSmartData_powerOnHours (device : String) (sys : SystemData) (d : DriveData) :
    (postSmartData device sys d).powerOnHours = d.powerOnHours := by
  unfold postSmartData
  dsimp only
  cases hs : d.serial <;> (repeat' split) <;> simp [mergeHBAData_powerOnHours]

lemma postSmartData_reallocated (device : String) (sys : SystemData) (d : DriveData) :
    (postSmartData device sys d).reallocated = d.reallocated := by
  unfold postSmartData
  dsimp only
  cases hs : d.serial <;> (repeat' split) <;> simp [mergeHBAData_reallocated]

lemma postSmartData_pendingSectors (device : String) (sys : SystemData) (d : DriveData) :
    (postSmartData device sys d).pendingSectors = d.pendingSectors := by
  unfold postSmartData
  dsimp only
  cases hs : d.serial <;> (repeat' split) <;> simp [mergeHBAData_pendingSectors]

lemma getSmartInfoFull_cached (dev : String) (o : SmartOracle) (i : smartInfo)
    (h : o.fullCache = some i) : (getSmartInfoFull dev o).fst = i := by
  simp [getSmartInfoFull, h]

lemma getSmartInfoFull_state_cases (dev : String) (o : SmartOracle)
    (h : o.fullCache = none) :
    ((getSmartInfoFull dev o).fst).state = "standby"
    ∨ ((getSmartInfoFull dev o).fst).state = "failed"
    ∨ ((getSmartInfoFull dev o).fst).state = "active" := by
  unfold getSmartInfoFull
  rw [h]
  dsimp only
  by_cases h1 : o.fullProbe.exitOk <;>
    by_cases h2 : hasStandbyIndicator o.fullProbe.output <;> simp [h1, h2]

lemma getSmartInfoFull_standby (dev : String) (o : SmartOracle)
    (h1 : o.fullCache = none) (h2 : o.fullProbe.exitOk = false)
    (h3 : hasStandbyIndicator o.fullProbe.output = true) :
    (getSmartInfoFull dev o).fst = { state := "standby" } := by
  unfold getSmartInfoFull
  rw [h1]
  dsimp only
  simp [h2, h3]

lemma mergeSmartData_fst (d : DriveData) (dev : String) (o : SmartOracle) :
    ((mergeSmartData d dev o).fst).state = ((getSmartInfoFull dev o).fst).state
    ∧ ((mergeSmartData d dev o).fst).temp = ((getSmartInfoFull dev o).fst).temp
    ∧ ((mergeSmartData d dev o).fst).smartHealth = ((getSmartInfoFull dev o).fst).smartHealth
    ∧ ((mergeSmartData d dev o).fst).powerOnHours = ((getSmartInfoFull dev o).fst).powerOnHours
    ∧ ((mergeSmartData d dev o).fst).reallocated = ((getSmartInfoFull dev o).fst).reallocated
    ∧ ((mergeSmartData d dev o).fst).pendingSectors
        = ((getSmartInfoFull dev o).fst).pendingSectors := by
  unfold mergeSmartData
  dsimp only
  exact ⟨rfl, rfl, rfl, rfl, rfl, rfl⟩

lemma gateState_eq (device : String) (sys : SystemData) (o : SmartOracle) :
    gateState device sys o =
      (if determineStateFromSysfs (mergePassiveLayers device sys) = "unknown"
       then ((getSmartStateOnly device o).fst).state
       else determineStateFromSysfs (mergePassiveLayers device sys)) := rfl

lemma full_state_ne_missing (dev : String) (o : SmartOracle)
    (hwf : ∀ i, o.fullCache = some i → i.state ≠ "missing") :
    ((getSmartInfoFull dev o).fst).state ≠ "missing" := by
  cases h : o.fullCache with
  | some i => rw [getSmartInfoFull_cached dev o i h]; exact hwf i h
  | none =>
    rcases getSmartInfoFull_state_cases dev o h with h2 | h2 | h2 <;> rw [h2] <;> decide

end JbodGod

namespace JbodGod
open Collector

lemma getSmartStateOnly_snd (dev : String) (o : SmartOracle) :
    (getSmartStateOnly dev o).snd = []
    ∨ (getSmartStateOnly dev o).snd = [SmartCmd.stateOnly dev] := by
  cases h : o.stateCache <;> simp [getSmartStateOnly, h]

lemma smartStage_snd (device : String) (d : DriveData) (ds : String) (o : SmartOracle) :
    (smartStage device d ds o).snd =
      (if ds = "active" then (getSmartInfoFull device o).snd
      else if ds = "unknown" then
        (if ((getSmartStateOnly device o).fst).state = "active" then
          (getSmartStateOnly device o).snd ++ (getSmartInfoFull device o).snd
        else (getSmartStateOnly device o).snd)
      else []) := by
  unfold smartStage mergeSmartData
  dsimp only
  split
  · rfl
  · split
    · split <;> rfl
    · rfl

lemma GetDriveData_trace_eq (device : String) (sys : SystemData) (o : SmartOracle) :
    (GetDriveData device sys o).snd =
      (if determineStateFromSysfs (mergePassiveLayers device sys) = "active" then
        (getSmartInfoFull device o).snd
      else if determineStateFromSysfs (mergePassiveLayers device sys) = "unknown" then
        (if ((getSmartStateOnly device o).fst).state = "active" then
          (getSmartStateOnly device o).snd ++ (getSmartInfoFull device o).snd
        else (getSmartStateOnly device o).snd)
      else []) := by
  rw [show (GetDriveData device sys o).snd =
    (smartStage device (preSmartData device sys)
      (determineStateFromSysfs (mergePassiveLayers device sys)) o).snd from rfl]
  rw [smartStage_snd]

/-- C1: for every drive whose gated state is standby, missing or failed the
engine never spawns the full SMART attribute read (smartctl with -A); the
full read appears in the command trace only when the gate settled on
active. -/
theorem C1_smart_attribute_read_only_when_gate_active :
    ∀ (device : String) (sys : SystemData) (o : SmartOracle),
      (SmartCmd.fullRead device ∈ (GetDriveData device sys o).snd →
        gateState device sys o = "active")
      ∧ (gateState device sys o ≠ "active" →
        SmartCmd.fullRead device ∉ (GetDriveData device sys o).snd) := by
  intro device sys o
  have htr := GetDriveData_trace_eq device sys o
  have hsnd := getSmartStateOnly_snd device o
  unfold gateState
  dsimp only
  rw [htr]
  generalize determineStateFromSysfs (mergePassiveLayers device sys) = ds
  by_cases h1 : ds = "active"
  · subst h1
    constructor
    · intro _
      simp
    · intro hne
      exact absurd (by simp) hne
  · by_cases h2 : ds = "unknown"
    · subst h2
      simp only [if_neg h1, if_pos rfl, reduceIte]
      by_cases h3 : ((getSmartStateOnly device o).fst).state = "active"
      · constructor
        · intro _
          simpa using h3
        · intro hne
          exact absurd (by simpa using h3) hne
      · simp only [if_neg h3]
        constructor
        · intro hmem
          rcases hsnd with h | h <;> rw [h] at hmem <;> simp at hmem
        · intro _ hmem
          rcases hsnd with h | h <;> rw [h] at hmem <;> simp at hmem
    · simp only [if_neg h1, if_neg h2]
      constructor
      · intro hmem
        simp at hmem
      · intro _ hmem
        simp at hmem

/-- C1 witness: a running drive that answers the state-only probe with
STANDBY is gated standby and its trace has no full read. -/
theorem C1_witness_standby_drive :
    gateState "/dev/sdb" Scenario.sysRunning Scenario.oracleStandby = "standby"
    ∧ SmartCmd.fullRead "/dev/sdb" ∉
        (GetDriveData "/dev/sdb" Scenario.sysRunning Scenario.oracleStandby).snd :=
  ⟨by decide,
    (C1_smart_attribute_read_only_when_gate_active "/dev/sdb" Scenario.sysRunning
      Scenario.oracleStandby).2 (by decide)⟩

end JbodGod

namespace JbodGod
open Collector

lemma GetDriveData_fst_eq (device : String) (sys : SystemData) (o : SmartOracle) :
    (GetDriveData device sys o).fst =
      postSmartData device sys
        ((smartStage device (preSmartData device sys)
          (determineStateFromSysfs (mergePassiveLayers device sys)) o).fst) := rfl

lemma smartStage_fst_active (device : String) (d : DriveData) (o : SmartOracle) :
    (smartStage device d "active" o).fst = (mergeSmartData d device o).fst := by
  unfold smartStage
  simp

lemma smartStage_fst_unknown (device : String) (d : DriveData) (o : SmartOracle) :
    (smartStage device d "unknown" o).fst =
      (if ((getSmartStateOnly device o).fst).state = "active" then
        (mergeSmartData { d with state := ((getSmartStateOnly device o).fst).state }
          device o).fst
      else { d with state := ((getSmartStateOnly device o).fst).state }) := by
  unfold smartStage
  dsimp only
  rw [if_neg (by decide : ¬("unknown" : String) = "active")]
  rw [if_pos (rfl : ("unknown" : String) = "unknown")]
  split <;> rfl

lemma smartStage_fst_other (device : String) (d : DriveData) (ds : String) (o : SmartOracle)
    (h1 : ds ≠ "active") (h2 : ds ≠ "unknown") :
    (smartStage device d ds o).fst = d := by
  unfold smartStage
  simp [h1, h2]

/-- C5 counterexample: a drive that vanished after the passive layers were
cached is fused with state missing, yet carries the HBA media-error count
and the cached ZFS pool correlation. -/
theorem C5_counterexample_missing_with_attachments :
    (GetDriveData "/dev/sdq" Scenario.sysMissing Scenario.oracleMissing).fst.state = "missing"
    ∧ (GetDriveData "/dev/sdq" Scenario.sysMissing
        Scenario.oracleMissing).fst.mediaErrors = some 7
    ∧ (GetDriveData "/dev/sdq" Scenario.sysMissing Scenario.oracleMissing).fst.zpool
        = some "tank"
    ∧ (GetDriveData "/dev/sdq" Scenario.sysMissing Scenario.oracleMissing).fst.zfsErrors
        ≠ none := by
  decide

/-- C5 amended: a fused record with state missing carries none of the five
SMART attribute fields that only the gated full read can set (temperature,
health, power-on hours, reallocated, pending sectors); the media-error
count from the cached HBA roster and the ZFS/LVM correlation may however
be present, because the missing verdict only arises at the probe stage,
after the correlation merge.  The cache hypothesis states that the full
read cache only ever holds records the full read itself produced. -/
theorem C5_amended_missing_has_no_smart_attributes :
    ∀ (device : String) (sys : SystemData) (o : SmartOracle),
      (∀ i, o.fullCache = some i → i.state ≠ "missing") →
      (GetDriveData device sys o).fst.state = "missing" →
      (GetDriveData device sys o).fst.temp = none
      ∧ (GetDriveData device sys o).fst.smartHealth = none
      ∧ (GetDriveData device sys o).fst.powerOnHours = none
      ∧ (GetDriveData device sys o).fst.reallocated = none
      ∧ (GetDriveData device sys o).fst.pendingSectors = none := by
  intro device sys o hwf hmiss
  rw [GetDriveData_fst_eq] at hmiss ⊢
  rw [postSmartData_state] at hmiss
  rw [postSmartData_temp, postSmartData_smartHealth, postSmartData_powerOnHours,
    postSmartData_reallocated, postSmartData_pendingSectors]
  rcases determineState_or device sys with hds | hds <;> rw [hds] at hmiss ⊢
  · -- the gate consulted the state-only probe
    rw [smartStage_fst_unknown] at hmiss ⊢
    by_cases h3 : ((getSmartStateOnly device o).fst).state = "active"
    · rw [if_pos h3] at hmiss
      rcases mergeSmartData_fst { preSmartData device sys with
          state := ((getSmartStateOnly device o).fst).state } device o with
        ⟨hst, _, _, _, _, _⟩
      rw [hst] at hmiss
      exact absurd hmiss (full_state_ne_missing device o hwf)
    · rw [if_neg h3] at hmiss ⊢
      exact ⟨preSmartData_temp device sys, preSmartData_smartHealth device sys,
        preSmartData_powerOnHours device sys, preSmartData_reallocated device sys,
        preSmartData_pendingSectors device sys⟩
  · -- sysfs said failed: the record cannot be missing
    rw [smartStage_fst_other device _ "failed" o (by decide) (by decide)] at hmiss
    rw [preSmartData_state, hds] at hmiss
    exact absurd hmiss (by decide)

/-- C5 amended witness: the vanished drive of the counterexample indeed has
no SMART attribute fields. -/
theorem C5_amended_witness :
    (GetDriveData "/dev/sdq" Scenario.sysMissing Scenario.oracleMissing).fst.temp = none
    ∧ (GetDriveData "/dev/sdq" Scenario.sysMissing
        Scenario.oracleMissing).fst.smartHealth = none
    ∧ (GetDriveData "/dev/sdq" Scenario.sysMissing
        Scenario.oracleMissing).fst.powerOnHours = none
    ∧ (GetDriveData "/dev/sdq" Scenario.sysMissing
        Scenario.oracleMissing).fst.reallocated = none
    ∧ (GetDriveData "/dev/sdq" Scenario.sysMissing
        Scenario.oracleMissing).fst.pendingSectors = none :=
  C5_amended_missing_has_no_smart_attributes "/dev/sdq" Scenario.sysMissing
    Scenario.oracleMissing (fun _ h => Option.noConfusion h) (by decide)

end JbodGod

namespace JbodGod
open Collector

/-- C9: when the gate classified a drive active but the full SMART read
(the only read allowed to run) comes back failed with a standby indicator,
the fused record is downgraded to standby and no attribute data is
recorded; the inconsistency is absorbed (the pipeline still returns a
record).  A failed invocation is a non-zero exit, the form in which
smartctl reports the standby refusal. -/
theorem C9_post_gate_standby_downgrade :
    ∀ (device : String) (sys : SystemData) (o : SmartOracle),
      gateState device sys o = "active" →
      o.fullCache = none →
      o.fullProbe.exitOk = false →
      hasStandbyIndicator o.fullProbe.output = true →
      (GetDriveData device sys o).fst.state = "standby"
      ∧ (GetDriveData device sys o).fst.temp = none
      ∧ (GetDriveData device sys o).fst.smartHealth = none
      ∧ (GetDriveData device sys o).fst.powerOnHours = none
      ∧ (GetDriveData device sys o).fst.reallocated = none
      ∧ (GetDriveData device sys o).fst.pendingSectors = none := by
  intro device sys o hg hc he hs
  have hfull := getSmartInfoFull_standby device o hc he hs
  rw [GetDriveData_fst_eq]
  rw [gateState_eq] at hg
  rw [postSmartData_state, postSmartData_temp, postSmartData_smartHealth,
    postSmartData_powerOnHours, postSmartData_reallocated, postSmartData_pendingSectors]
  rcases determineState_or device sys with hds | hds <;> rw [hds] at hg ⊢
  · -- the gate settled on active through the state-only probe
    rw [if_pos rfl] at hg
    rw [smartStage_fst_unknown, if_pos hg]
    rcases mergeSmartData_fst { preSmartData device sys with
        state := ((getSmartStateOnly device o).fst).state } device o with
      ⟨h1, h2, h3, h4, h5, h6⟩
    rw [h1, h2, h3, h4, h5, h6, hfull]
    exact ⟨rfl, rfl, rfl, rfl, rfl, rfl⟩
  · -- sysfs-derived state failed contradicts an active gate verdict
    rw [if_neg (by decide : ¬("failed" : String) = "unknown")] at hg
    exact absurd hg (by decide)

/-- C9 witness: a drive whose gate came back active and whose full read
then answered with a standby refusal is fused standby with no attributes. -/
theorem C9_witness_race :
    (GetDriveData "/dev/sdb" Scenario.sysRunning Scenario.oracleRace).fst.state = "standby"
    ∧ (GetDriveData "/dev/sdb" Scenario.sysRunning Scenario.oracleRace).fst.temp = none
    ∧ (GetDriveData "/dev/sdb" Scenario.sysRunning
        Scenario.oracleRace).fst.smartHealth = none
    ∧ (GetDriveData "/dev/sdb" Scenario.sysRunning
        Scenario.oracleRace).fst.powerOnHours = none
    ∧ (GetDriveData "/dev/sdb" Scenario.sysRunning
        Scenario.oracleRace).fst.reallocated = none
    ∧ (GetDriveData "/dev/sdb" Scenario.sysRunning
        Scenario.oracleRace).fst.pendingSectors = none :=
  C9_post_gate_standby_downgrade "/dev/sdb" Scenario.sysRunning Scenario.oracleRace
    (by decide) rfl (by decide) (by decide)

end JbodGod

namespace JbodGod
open Collector

/-- C6: the drive-state gate.  Sysfs offline or blocked classifies failed;
running is indeterminate and the gate defers to the state-only probe, as
does an absent device (whose probe then reports No such device/file).  The
probe output mapping: a standby indicator wins over everything; on a
failed (non-zero) invocation the message No such device/file means
missing, anything else failed (this covers the I/O-error message); a clean
exit without a standby indicator is active.  The message clauses are read
in the context of a failed invocation because smartctl emits them with a
non-zero status. -/
theorem C6_gate_classification :
    (∀ (d : DriveData) (s : SysfsDevice) (st : String), s.state = some st →
      st = "offline" ∨ st = "blocked" → (mergeSysfsData d s).state = "failed")
    ∧ (∀ (d : DriveData) (s : SysfsDevice), s.state = some "running" →
      (mergeSysfsData d s).state = "unknown")
    ∧ (∀ r : SmartProbeResult, hasStandbyIndicator r.output = true →
      (classifyStateOnly r).state = "standby")
    ∧ (∀ r : SmartProbeResult, hasStandbyIndicator r.output = false →
      r.exitOk = false → hasNoSuchDevice r.output = true →
      (classifyStateOnly r).state = "missing")
    ∧ (∀ r : SmartProbeResult, hasStandbyIndicator r.output = false →
      r.exitOk = false → hasNoSuchDevice r.output = false →
      (classifyStateOnly r).state = "failed")
    ∧ (∀ r : SmartProbeResult, hasStandbyIndicator r.output = false →
      r.exitOk = true → (classifyStateOnly r).state = "active")
    ∧ (∀ (device : String) (sys : SystemData) (o : SmartOracle),
      lookupMap sys.sysfsDevices (trimPre device "/dev/") = none →
      o.stateCache = none →
      gateState device sys o = (classifyStateOnly o.stateProbe).state)
    ∧ (∀ (device : String) (sys : SystemData) (o : SmartOracle) (s : SysfsDevice),
      lookupMap sys.sysfsDevices (trimPre device "/dev/") = some s →
      s.state = some "running" →
      o.stateCache = none →
      gateState device sys o = (classifyStateOnly o.stateProbe).state) := by
  refine ⟨?_, ?_, ?_, ?_, ?_, ?_, ?_, ?_⟩
  · intro d s st h hor
    exact mergeSysfsData_state_failed d s st h hor
  · intro d s h
    exact mergeSysfsData_state_running d s h
  · intro r h
    simp [classifyStateOnly, h]
  · intro r h1 h2 h3
    simp [classifyStateOnly, h1, h2, h3]
  · intro r h1 h2 h3
    by_cases h4 : strContains r.output "I/O error" <;>
      simp [classifyStateOnly, h1, h2, h3, h4]
  · intro r h1 h2
    simp [classifyStateOnly, h1, h2]
  · intro device sys o hl hc
    have hds : determineStateFromSysfs (mergePassiveLayers device sys) = "unknown" := by
      rw [determineStateFromSysfs, mergePassiveLayers_state_eq, hl]
      simp
    rw [gateState_eq, hds, if_pos rfl]
    simp [getSmartStateOnly, hc]
  · intro device sys o s hl hst hc
    have hds : determineStateFromSysfs (mergePassiveLayers device sys) = "unknown" := by
      rw [determineStateFromSysfs, mergePassiveLayers_state_eq, hl]
      dsimp only
      rw [hst]
      simp
    rw [gateState_eq, hds, if_pos rfl]
    simp [getSmartStateOnly, hc]

/-- C6 witness: the clauses applied to literal probe results and to the
vanished-drive snapshot. -/
theorem C6_witness_probe_outputs :
    (classifyStateOnly { output := "Device is in STANDBY mode", exitOk := false }).state
        = "standby"
    ∧ (classifyStateOnly { output := "No such device", exitOk := false }).state
        = "missing"
    ∧ (classifyStateOnly { output := "some I/O error", exitOk := false }).state = "failed"
    ∧ (classifyStateOnly { output := "Serial number: ZA1DKJT7", exitOk := true }).state
        = "active"
    ∧ gateState "/dev/sdq" Scenario.sysMissing Scenario.oracleMissing
        = (classifyStateOnly Scenario.oracleMissing.stateProbe).state :=
  ⟨C6_gate_classification.2.2.1 _ (by decide),
    C6_gate_classification.2.2.2.1 _ (by decide) (by decide) (by decide),
    C6_gate_classification.2.2.2.2.1 _ (by decide) (by decide) (by decide),
    C6_gate_classification.2.2.2.2.2.1 _ (by decide) (by decide),
    C6_gate_classification.2.2.2.2.2.2.1 "/dev/sdq" Scenario.sysMissing
      Scenario.oracleMissing (by decide) rfl⟩

end JbodGod

namespace JbodGod
open Collector

/-- C8 counterexample: sysfs hints slot 3 for /dev/sda while the HBA roster
reports slot 9 in enclosure 2; the fused record keeps the sysfs slot 3, so
the HBA slot does not win. -/
theorem C8_counterexample_sysfs_slot_wins :
    (GetDriveData "/dev/sda" Scenario.sysSlotClash Scenario.oracleActive).fst.slot = some 3
    ∧ (GetDriveData "/dev/sda" Scenario.sysSlotClash
        Scenario.oracleActive).fst.slot ≠ some 9
    ∧ (GetDriveData "/dev/sda" Scenario.sysSlotClash
        Scenario.oracleActive).fst.enclosure = some 2 := by
  decide

/-- C8 amended: the merge keeps the first non-empty value per field in layer
order.  For slot this means the sysfs hint wins and the HBA roster only
fills an empty slot; the sysfs enclosure hint is stored as controller_id,
so enclosure_id is populated by the HBA roster alone; identity fields
(serial, wwn, model, vendor, sas address) follow the same first-non-empty
rule. -/
theorem C8_amended_merge_precedence :
    ∀ (d : DriveData) (s : SysfsDevice) (serial : String) (sys : SystemData)
      (h : HBADevice),
      lookupMap sys.hbaDevices (strToUpper serial) = some h →
      (mergeSysfsData d s).slot = fill d.slot s.slot
      ∧ (mergeSysfsData d s).enclosure = d.enclosure
      ∧ (∀ e, s.enclosureID = some e → (mergeSysfsData d s).controllerID = some e)
      ∧ (mergeHBAData d serial sys).slot = fill d.slot (some h.slot)
      ∧ (mergeHBAData d serial sys).enclosure = fill d.enclosure (some h.enclosureID)
      ∧ (mergeSysfsData d s).serial = fill d.serial s.serial
      ∧ (mergeSysfsData d s).wwn = fill d.wwn s.wwn
      ∧ (mergeSysfsData d s).model = fill d.model s.model
      ∧ (mergeSysfsData d s).vendor = fill d.vendor s.vendor
      ∧ (mergeHBAData d serial sys).wwn = fill d.wwn h.wwn
      ∧ (mergeHBAData d serial sys).sasAddress = fill d.sasAddress h.sasAddress := by
  intro d s serial sys h hl
  exact ⟨mergeSysfsData_slot d s, mergeSysfsData_enclosure d s,
    fun e he => mergeSysfsData_controllerID d s e he,
    mergeHBAData_slot d serial sys h hl,
    mergeHBAData_enclosure d serial sys h hl,
    mergeSysfsData_serial d s, mergeSysfsData_wwn d s,
    mergeSysfsData_model d s, mergeSysfsData_vendor d s,
    mergeHBAData_wwn d serial sys h hl,
    mergeHBAData_sasAddress d serial sys h hl⟩

/-- C8 amended witness: with slot 3 already present from sysfs, the HBA
merge keeps slot 3 and supplies enclosure 2. -/
theorem C8_amended_witness :
    (mergeHBAData Scenario.driveC8 "S1" Scenario.sysSlotClash).slot = some 3
    ∧ (mergeHBAData Scenario.driveC8 "S1" Scenario.sysSlotClash).enclosure = some 2 := by
  have h := C8_amended_merge_precedence Scenario.driveC8 Scenario.sysfsC8 "S1"
    Scenario.sysSlotClash { controllerID := "c0", enclosureID := 2, slot := 9 } (by decide)
  exact ⟨h.2.2.2.1.trans (by decide), h.2.2.2.2.1.trans (by decide)⟩

end JbodGod

namespace JbodGod

/-- C4: in a timed locate whose LED-on succeeded, the LED-off command is
issued on both exit paths of the wait, the timeout and the
interrupt/cancellation arm, in the command runner and in the library
helper alike; when LED-on failed, the wait is never entered and no off is
issued. -/
theorem C4_led_off_on_every_exit_path :
    ∀ (offOk : Bool) (w : Ses.WaitOutcome),
      (Ses.runLocateTimed true offOk w).fst = [Ses.LedAction.ledOn, Ses.LedAction.ledOff]
      ∧ (Ses.LocateWithTimeout true offOk w).fst = [Ses.LedAction.ledOn, Ses.LedAction.ledOff]
      ∧ (Ses.runLocateTimed false offOk w).fst = [Ses.LedAction.ledOn]
      ∧ (Ses.LocateWithTimeout false offOk w).fst = [Ses.LedAction.ledOn] := by
  intro offOk w
  cases offOk <;> cases w <;> decide

/-- C10: MarkPoolImported updates every exported_pools row of the named pool
whose imported timestamp is null, setting the timestamp and the outcome,
and leaves rows of other pools and rows already marked imported unchanged;
the row count is preserved. -/
theorem C10_mark_imported_updates_every_null_row :
    ∀ (tbl : List Db.ExportedPool) (pool status : String) (now i : Nat)
      (r : Db.ExportedPool),
      tbl[i]? = some r →
      (Db.MarkPoolImported tbl pool status now).length = tbl.length
      ∧ (r.poolName = pool → r.importedTimestamp = none →
          (Db.MarkPoolImported tbl pool status now)[i]? =
            some { r with importedTimestamp := some now, importStatus := some status })
      ∧ (r.poolName ≠ pool → (Db.MarkPoolImported tbl pool status now)[i]? = some r)
      ∧ (r.importedTimestamp ≠ none →
          (Db.MarkPoolImported tbl pool status now)[i]? = some r) := by
  intro tbl pool status now i r h
  refine ⟨List.length_map _ _, ?_, ?_, ?_⟩
  · intro hp hi
    simp [Db.MarkPoolImported, List.getElem?_map, h, hp, hi]
  · intro hp
    simp [Db.MarkPoolImported, List.getElem?_map, h, hp]
  · intro hi
    simp [Db.MarkPoolImported, List.getElem?_map, h, Option.isNone_iff_eq_none, hi]

/-- C10 witness: marking tank updates both null tank rows, not only the one
from the most recent export, and leaves the dozer row alone. -/
theorem C10_witness_two_tank_rows :
    (Db.MarkPoolImported Scenario.tableTwoTank "tank" "success" 9)[0]? =
        some { id := 0, poolName := "tank", exportTimestamp := 1,
               memberSerials := ["ZA1DKJT7"],
               importedTimestamp := some 9, importStatus := some "success" }
    ∧ (Db.MarkPoolImported Scenario.tableTwoTank "tank" "success" 9)[1]? =
        some { id := 1, poolName := "tank", exportTimestamp := 2,
               memberSerials := ["ZA1DKJT8"],
               importedTimestamp := some 9, importStatus := some "success" }
    ∧ (Db.MarkPoolImported Scenario.tableTwoTank "tank" "success" 9)[2]? =
        some { id := 2, poolName := "dozer", exportTimestamp := 3,
               memberSerials := ["WCK5NWKQ"] } :=
  ⟨(C10_mark_imported_updates_every_null_row Scenario.tableTwoTank "tank" "success" 9 0
      _ rfl).2.1 rfl rfl,
    (C10_mark_imported_updates_every_null_row Scenario.tableTwoTank "tank" "success" 9 1
      _ rfl).2.1 rfl rfl,
    (C10_mark_imported_updates_every_null_row Scenario.tableTwoTank "tank" "success" 9 2
      _ rfl).2.2.1 (by decide)⟩

/-- C2 counterexample: with both a pool named tank and a filesystem label
tank in the built index, lookup resolves tank to the fs-label match, not to
the pool: byFSLabel is consulted before byZFSPoolName. -/
theorem C2_counterexample_fslabel_shadows_pool :
    Identify.Lookup Scenario.indexA (fun _ => none) "tank" =
        some (Scenario.partA, Identify.IdentifierType.fsLabel)
    ∧ (Identify.Lookup Scenario.indexA (fun _ => none) "tank").map Prod.snd ≠
        some Identify.IdentifierType.zfsPoolName
    ∧ (lookupMap Scenario.indexA.byZFSPoolName "tank").isSome = true := by
  decide

/-- C2 amended: lookup resolves a query by the first hit in the fixed
reverse-map order of the source; a query carried by byFSLabel (and not by
any earlier step or map) resolves to the fs-label match regardless of what
byZFSPoolName holds, so a filesystem label does shadow a same-named pool. -/
theorem C2_amended_lookup_order :
    ∀ (idx : Identify.DeviceIndex) (resolveSym : String → Option String)
      (q dp : String) (e : Identify.DeviceEntity),
      lookupMap idx.entities q = none →
      (resolveSym q >>= fun r => lookupMap idx.entities r) = none →
      (lookupMap idx.symlinkMap q >>= fun p => lookupMap idx.entities p) = none →
      lookupMap idx.byKernelName q = none →
      lookupMap idx.bySerial q = none →
      lookupMap idx.byWWN q = none →
      lookupMap idx.byLUID q = none →
      lookupMap idx.byNGUID q = none →
      lookupMap idx.byEUI64 q = none →
      lookupMap idx.byPartUUID q = none →
      lookupMap idx.byFSUUID q = none →
      lookupMap idx.byPartLabel q = none →
      lookupMap idx.byFSLabel q = some dp →
      lookupMap idx.entities dp = some e →
      Identify.Lookup idx resolveSym q = some (e, Identify.IdentifierType.fsLabel) := by
  intro idx resolveSym q dp e h1 h2 h3 h4 h5 h6 h7 h8 h9 h10 h11 h12 h13 h14
  simp [Identify.Lookup, Identify.lookupChain, Identify.firstIndexHit,
    h1, h2, h3, h4, h5, h6, h7, h8, h9, h10, h11, h12, h13, h14]

/-- C2 amended witness: the Scenario A index resolves tank to the fs-label
partition. -/
theorem C2_amended_witness :
    Identify.Lookup Scenario.indexA (fun _ => none) "tank" =
      some (Scenario.partA, Identify.IdentifierType.fsLabel) :=
  C2_amended_lookup_order Scenario.indexA (fun _ => none) "tank" "/dev/sda1" Scenario.partA
    (by decide) (by decide) (by decide) (by decide) (by decide) (by decide) (by decide)
    (by decide) (by decide) (by decide) (by decide) (by decide) (by decide) (by decide)

end JbodGod

namespace JbodGod
open Drive

lemma exportLoop_abort (opts : SpindownOptions) (consent exportOk : String → Bool)
    (dbAvail : Bool) (now : Nat) (pf : PoolDriveMapping) :
    ∀ (pools : List PoolDriveMapping) (tbl : List Db.ExportedPool),
      ((pools.filter fun p => opts.forceAll || consent p.poolName).find?
        fun p => !exportOk p.poolName) = some pf →
      ∃ sk,
        exportLoop opts consent exportOk dbAvail now pools tbl =
          { trace :=
              ((pools.filter fun p => opts.forceAll || consent p.poolName).takeWhile
                  fun p => exportOk p.poolName).map
                  (fun p => SpinAction.exportPool p.poolName)
                ++ [SpinAction.exportPool pf.poolName]
            exported :=
              ((pools.filter fun p => opts.forceAll || consent p.poolName).takeWhile
                fun p => exportOk p.poolName).map (fun p => p.poolName)
            skipped := sk
            aborted := true
            table :=
              ((pools.filter fun p => opts.forceAll || consent p.poolName).takeWhile
                fun p => exportOk p.poolName).foldl
                (fun t p =>
                  if dbAvail then Db.RecordPoolExport t p.poolName p.serials "spindown" now
                  else t) tbl } := by
  intro pools
  induction pools with
  | nil => intro tbl h; simp at h
  | cons p rest ih =>
    intro tbl h
    by_cases hA : (opts.forceAll || consent p.poolName) = true
    · have hfil : ((p :: rest).filter fun q => opts.forceAll || consent q.poolName)
          = p :: (rest.filter fun q => opts.forceAll || consent q.poolName) := by
        simp [List.filter_cons, hA]
      rw [hfil] at h ⊢
      by_cases hok : exportOk p.poolName = true
      · rw [List.find?_cons_of_neg _ (by simp [hok])] at h
        obtain ⟨sk, hsk⟩ := ih
          (if dbAvail then Db.RecordPoolExport tbl p.poolName p.serials "spindown" now
           else tbl) h
        refine ⟨sk, ?_⟩
        rw [List.takeWhile_cons_of_pos (p := fun q : PoolDriveMapping => exportOk q.poolName) hok]
        show exportLoop opts consent exportOk dbAvail now (p :: rest) tbl = _
        simp only [exportLoop, hA, hok, if_true, hsk]
        simp
      · rw [List.find?_cons_of_pos _ (by simp [hok])] at h
        injection h with h
        subst h
        refine ⟨[], ?_⟩
        rw [List.takeWhile_cons_of_neg (p := fun q : PoolDriveMapping => exportOk q.poolName) (by simp [hok])]
        show exportLoop opts consent exportOk dbAvail now (p :: rest) tbl = _
        simp only [exportLoop, hA, hok, if_true    ]
        simp [hok]
    · have hA2 : (opts.forceAll || consent p.poolName) = false := by
        revert hA
        cases opts.forceAll || consent p.poolName <;> simp
      have hfil : ((p :: rest).filter fun q => opts.forceAll || consent q.poolName)
          = (rest.filter fun q => opts.forceAll || consent q.poolName) := by
        simp [List.filter_cons, hA2]
      rw [hfil] at h ⊢
      obtain ⟨sk, hsk⟩ := ih tbl h
      refine ⟨p.devices ++ sk, ?_⟩
      show exportLoop opts consent exportOk dbAvail now (p :: rest) tbl = _
      simp only [exportLoop, hA2, hsk]
      simp

lemma exportLoop_trace_exports (opts : SpindownOptions) (consent exportOk : String → Bool)
    (dbAvail : Bool) (now : Nat) :
    ∀ (pools : List PoolDriveMapping) (tbl : List Db.ExportedPool),
      ∀ a ∈ (exportLoop opts consent exportOk dbAvail now pools tbl).trace,
        isExport a = true := by
  intro pools
  induction pools with
  | nil => intro tbl a ha; simp [exportLoop] at ha
  | cons p rest ih =>
    intro tbl a ha
    by_cases hA : (opts.forceAll || consent p.poolName) = true
    · by_cases hok : exportOk p.poolName = true
      · simp only [exportLoop, hA, hok, if_true] at ha
        simp only [List.mem_cons] at ha
        rcases ha with ha | ha
        · subst ha; rfl
        · exact ih _ a ha
      · simp only [exportLoop, hA, hok, if_true] at ha
        simp only [Bool.false_eq_true, if_false, List.mem_singleton] at ha
        subst ha
        rfl
    · have hA2 : (opts.forceAll || consent p.poolName) = false := by
        revert hA
        cases opts.forceAll || consent p.poolName <;> simp
      simp only [exportLoop, hA2, Bool.false_eq_true, if_false] at ha
      exact ih tbl a ha

lemma noExportAfterStop_of_exports (tr : List SpinAction)
    (h : ∀ a ∈ tr, isExport a = true) (stops : List String) :
    noExportAfterStop (tr ++ stops.map SpinAction.stop) = true := by
  induction tr with
  | nil =>
    simp only [List.nil_append]
    induction stops with
    | nil => rfl
    | cons s rest ih =>
      simp only [List.map_cons, noExportAfterStop, isStop, if_true]
      rw [List.all_eq_true]
      intro b hb
      rw [List.mem_map] at hb
      obtain ⟨x, _, hx⟩ := hb
      subst hx
      rfl
  | cons a rest ih =>
    have ha := h a (by simp)
    have hstop : isStop a = false := by
      cases a <;> simp_all [isExport, isStop]
    simp only [List.cons_append, noExportAfterStop, hstop]
    rw [if_neg (by simp [hstop])]
    exact ih (fun b hb => h b (by simp [hb]))

/-- C3: when an approved pool export fails during ZFS-aware spindown, the
operation exits 1, the remaining exports are not attempted (the command
trace ends at the failing export), no SCSI stop command is issued to any
drive, and the inventory holds exactly one export record per pool exported
before the failure.  Independently, in every run of the controller no
export is issued after a stop command (the export loop completes before the
stop loop begins). -/
theorem C3_export_failure_aborts_before_stops :
    (∀ (drives : List String) (opts : SpindownOptions) (pools : List PoolDriveMapping)
       (consent exportOk : String → Bool) (tbl : List Db.ExportedPool) (now : Nat)
       (pf : PoolDriveMapping),
      opts.force = false →
      drives ≠ [] →
      ((pools.filter fun p => opts.forceAll || consent p.poolName).find?
        fun p => !exportOk p.poolName) = some pf →
      (SpindownWithZFS drives opts true pools consent exportOk true tbl now).2.2 = 1
      ∧ (∀ a ∈ (SpindownWithZFS drives opts true pools consent exportOk true tbl now).1,
          isStop a = false)
      ∧ (SpindownWithZFS drives opts true pools consent exportOk true tbl now).1 =
          ((pools.filter fun p => opts.forceAll || consent p.poolName).takeWhile
              fun p => exportOk p.poolName).map
              (fun p => SpinAction.exportPool p.poolName)
            ++ [SpinAction.exportPool pf.poolName]
      ∧ (SpindownWithZFS drives opts true pools consent exportOk true tbl now).2.1 =
          ((pools.filter fun p => opts.forceAll || consent p.poolName).takeWhile
            fun p => exportOk p.poolName).foldl
            (fun t p => Db.RecordPoolExport t p.poolName p.serials "spindown" now) tbl)
    ∧ (∀ (drives : List String) (opts : SpindownOptions) (analyzeOk : Bool)
       (pools : List PoolDriveMapping) (consent exportOk : String → Bool)
       (dbAvail : Bool) (tbl : List Db.ExportedPool) (now : Nat),
      noExportAfterStop
        (SpindownWithZFS drives opts analyzeOk pools consent exportOk dbAvail tbl
          now).1 = true) := by
  constructor
  · intro drives opts pools consent exportOk tbl now pf hforce hdr hfind
    obtain ⟨sk, hsk⟩ := exportLoop_abort opts consent exportOk true now pf pools tbl hfind
    have hne : drives.isEmpty = false := by
      cases drives with
      | nil => exact absurd rfl hdr
      | cons a l => rfl
    have hstop : ∀ a ∈ (SpindownWithZFS drives opts true pools consent exportOk true
        tbl now).1, isStop a = false := by
      intro a ha
      simp only [SpindownWithZFS, hne, hforce, Bool.false_eq_true, if_false,
        Bool.not_true, hsk] at ha
      have hx := exportLoop_trace_exports opts consent exportOk true now pools tbl a
        (by rw [hsk]; exact ha)
      cases a <;> simp_all [isExport, isStop]
    refine ⟨?_, hstop, ?_, ?_⟩
    · simp [SpindownWithZFS, hne, hforce, hsk]
    · simp [SpindownWithZFS, hne, hforce, hsk]
    · simp [SpindownWithZFS, hne, hforce, hsk]
  · intro drives opts analyzeOk pools consent exportOk dbAvail tbl now
    by_cases hemp : drives.isEmpty
    · simp [SpindownWithZFS, hemp, noExportAfterStop]
    · by_cases hforce : opts.force
      · simp only [SpindownWithZFS, hemp, hforce, Bool.false_eq_true, if_false, if_true]
        exact noExportAfterStop_of_exports [] (by intro a ha; cases ha) drives
      · by_cases han : analyzeOk
        · simp only [SpindownWithZFS, hemp, hforce, han, Bool.not_true,
            Bool.false_eq_true, if_false]
          by_cases hab : (exportLoop opts consent exportOk dbAvail now pools
              tbl).aborted = true
          · simp only [hab, if_true]
            have hx := noExportAfterStop_of_exports
              (exportLoop opts consent exportOk dbAvail now pools tbl).trace
              (exportLoop_trace_exports opts consent exportOk dbAvail now pools tbl) []
            simpa using hx
          · simp only [hab, Bool.false_eq_true, if_false]
            exact noExportAfterStop_of_exports _
              (exportLoop_trace_exports opts consent exportOk dbAvail now pools tbl) _
        · simp only [SpindownWithZFS, hemp, hforce, han, Bool.false_eq_true, if_false,
            Bool.not_false, if_true]
          exact noExportAfterStop_of_exports [] (by intro a ha; cases ha) drives

/-- C3 witness, Scenario F: tankA exports, tankB fails; exit 1, the trace
has the two export attempts and no stop, the inventory records tankA only. -/
theorem C3_witness_scenario_f :
    (SpindownWithZFS ["/dev/sda", "/dev/sdb", "/dev/sdc"] {} true Scenario.poolsF
        (fun _ => true) (fun p => p == "tankA") true [] 42).2.2 = 1
    ∧ (SpindownWithZFS ["/dev/sda", "/dev/sdb", "/dev/sdc"] {} true Scenario.poolsF
        (fun _ => true) (fun p => p == "tankA") true [] 42).1 =
        [SpinAction.exportPool "tankA", SpinAction.exportPool "tankB"]
    ∧ (SpindownWithZFS ["/dev/sda", "/dev/sdb", "/dev/sdc"] {} true Scenario.poolsF
        (fun _ => true) (fun p => p == "tankA") true [] 42).2.1 =
        [{ id := 0, poolName := "tankA", exportTimestamp := 42,
           exportReason := "spindown",
           memberSerials := ["ZA1DKJT7", "ZA1DKJT8"] }] := by
  have h := C3_export_failure_aborts_before_stops.1 ["/dev/sda", "/dev/sdb", "/dev/sdc"]
    {} Scenario.poolsF (fun _ => true) (fun p => p == "tankA") [] 42
    { poolName := "tankB", devices := ["/dev/sdc"], serials := ["WCK5NWKQ"] }
    rfl (by decide) (by decide)
  exact ⟨h.1, h.2.2.1.trans (by decide), h.2.2.2.trans (by decide)⟩


end JbodGod

namespace JbodGod
open Drive
open Db

lemma mem_insertByTs (p a : ExportedPool) (l : List ExportedPool) :
    a ∈ insertByTs p l ↔ a = p ∨ a ∈ l := by
  induction l with
  | nil => simp [insertByTs]
  | cons q rest ih =>
    by_cases h : p.exportTimestamp ≤ q.exportTimestamp
    · simp [insertByTs, h]
    · simp only [insertByTs, h, if_false, List.mem_cons, ih]
      tauto

lemma sorted_insertByTs (p : ExportedPool) (l : List ExportedPool)
    (h : l.Pairwise fun a b => a.exportTimestamp ≤ b.exportTimestamp) :
    (insertByTs p l).Pairwise fun a b => a.exportTimestamp ≤ b.exportTimestamp := by
  induction l with
  | nil => simp [insertByTs]
  | cons q rest ih =>
    rcases List.pairwise_cons.mp h with ⟨hq, hrest⟩
    by_cases hle : p.exportTimestamp ≤ q.exportTimestamp
    · simp only [insertByTs, hle, if_true]
      refine List.pairwise_cons.mpr ⟨?_, h⟩
      intro b hb
      rcases List.mem_cons.mp hb with rfl | hb
      · exact hle
      · exact le_trans hle (hq b hb)
    · simp only [insertByTs, hle, if_false]
      refine List.pairwise_cons.mpr ⟨?_, ih hrest⟩
      intro b hb
      rcases (mem_insertByTs p b rest).mp hb with rfl | hb
      · exact Nat.le_of_not_le hle
      · exact hq b hb

lemma sortByTs_pairwise (l : List ExportedPool) :
    (sortByTs l).Pairwise fun a b => a.exportTimestamp ≤ b.exportTimestamp := by
  induction l with
  | nil => simp [sortByTs]
  | cons p rest ih => exact sorted_insertByTs p (sortByTs rest) ih

lemma mem_sortByTs (a : ExportedPool) (l : List ExportedPool) :
    a ∈ sortByTs l ↔ a ∈ l := by
  induction l with
  | nil => simp [sortByTs]
  | cons p rest ih =>
    simp [sortByTs, mem_insertByTs, ih]

lemma importsOf_cons_pi (x : String) (tr : List SpinAction) :
    importsOf (SpinAction.poolImport x :: tr) = x :: importsOf tr := rfl

lemma importsOf_cons_mark (x s : String) (tr : List SpinAction) :
    importsOf (SpinAction.markImported x s :: tr) = importsOf tr := rfl

lemma marksOf_cons_pi (x : String) (tr : List SpinAction) :
    marksOf (SpinAction.poolImport x :: tr) = marksOf tr := rfl

lemma marksOf_cons_mark (x s : String) (tr : List SpinAction) :
    marksOf (SpinAction.markImported x s :: tr) = (x, s) :: marksOf tr := rfl

lemma importsOf_start_append (drives : List String) (tr : List SpinAction) :
    importsOf (drives.map SpinAction.start ++ tr) = importsOf tr := by
  induction drives with
  | nil => rfl
  | cons d ds ih => simp only [List.map_cons, List.cons_append, importsOf, List.filterMap_cons] at ih ⊢; exact ih

lemma marksOf_start_append (drives : List String) (tr : List SpinAction) :
    marksOf (drives.map SpinAction.start ++ tr) = marksOf tr := by
  induction drives with
  | nil => rfl
  | cons d ds ih => simp only [List.map_cons, List.cons_append, marksOf, List.filterMap_cons] at ih ⊢; exact ih

lemma impLoop_spec (impOk : String → Bool) (now : Nat) :
    ∀ (pending : List ExportedPool) (tbl : List ExportedPool),
      importsOf (impLoop impOk now pending tbl).fst = pending.map (fun p => p.poolName)
      ∧ marksOf (impLoop impOk now pending tbl).fst =
          pending.map (fun p =>
            (p.poolName, if impOk p.poolName then "success" else "failed"))
      ∧ (impLoop impOk now pending tbl).snd =
          pending.foldl
            (fun t p => MarkPoolImported t p.poolName
              (if impOk p.poolName then "success" else "failed") now) tbl := by
  intro pending
  induction pending with
  | nil => intro tbl; exact ⟨rfl, rfl, rfl⟩
  | cons p rest ih =>
    intro tbl
    by_cases h : impOk p.poolName = true
    · obtain ⟨i1, i2, i3⟩ := ih (MarkPoolImported tbl p.poolName "success" now)
      simp only [impLoop, h, if_true, importsOf_cons_pi, importsOf_cons_mark,
        marksOf_cons_pi, marksOf_cons_mark, i1, i2, i3, List.map_cons, List.foldl_cons]
      exact ⟨trivial, trivial, trivial⟩
    · obtain ⟨i1, i2, i3⟩ := ih (MarkPoolImported tbl p.poolName "failed" now)
      simp only [impLoop, h, Bool.false_eq_true, if_false, importsOf_cons_pi,
        importsOf_cons_mark, marksOf_cons_pi, marksOf_cons_mark, i1, i2, i3,
        List.map_cons, List.foldl_cons]
      exact ⟨trivial, trivial, trivial⟩

end JbodGod

namespace JbodGod
open Drive
open Db

/-- C7: spinup with no_import skips pool import entirely; otherwise the
engine resolves exactly the pending exported-pool records whose member
serials intersect the spun-up drives' serials, processes them oldest
export first, attempts an import of each record even after failures, and
marks each record with the outcome of its import (success or failed) in
the inventory. -/
theorem C7_spinup_resolves_pending_imports :
    (∀ (drives : List String) (serialOf : String → String) (impOk : String → Bool)
       (dbAvail : Bool) (tbl : List ExportedPool) (now : Nat),
      SpinupWithZFS drives { noImport := true } serialOf impOk dbAvail tbl now
        = (drives.map SpinAction.start, tbl))
    ∧ (∀ (drives : List String) (serialOf : String → String) (impOk : String → Bool)
       (tbl : List ExportedPool) (now : Nat),
      importsOf
          (SpinupWithZFS drives { noImport := false } serialOf impOk true tbl now).1
        = (GetPendingImportsForDrives tbl
            ((drives.map serialOf).filter fun s => s ≠ "")).map (fun p => p.poolName)
      ∧ marksOf
          (SpinupWithZFS drives { noImport := false } serialOf impOk true tbl now).1
        = (GetPendingImportsForDrives tbl
            ((drives.map serialOf).filter fun s => s ≠ "")).map
            (fun p => (p.poolName, if impOk p.poolName then "success" else "failed"))
      ∧ (SpinupWithZFS drives { noImport := false } serialOf impOk true tbl now).2
        = (GetPendingImportsForDrives tbl
            ((drives.map serialOf).filter fun s => s ≠ "")).foldl
            (fun t p => MarkPoolImported t p.poolName
              (if impOk p.poolName then "success" else "failed") now) tbl
      ∧ (GetPendingImportsForDrives tbl
          ((drives.map serialOf).filter fun s => s ≠ "")).Pairwise
          (fun a b => a.exportTimestamp ≤ b.exportTimestamp)
      ∧ (∀ r, r ∈ GetPendingImportsForDrives tbl
            ((drives.map serialOf).filter fun s => s ≠ "") ↔
          r ∈ tbl ∧ r.importedTimestamp = none
          ∧ r.memberSerials.any
              (fun s => ((drives.map serialOf).filter fun s => s ≠ "").contains s)
            = true)) := by
  constructor
  · intro drives serialOf impOk dbAvail tbl now
    cases drives with
    | nil => simp [SpinupWithZFS]
    | cons d ds => simp [SpinupWithZFS]
  · intro drives serialOf impOk tbl now
    have hpair : (GetPendingImportsForDrives tbl
        ((drives.map serialOf).filter fun s => s ≠ "")).Pairwise
        (fun a b => a.exportTimestamp ≤ b.exportTimestamp) := by
      unfold GetPendingImportsForDrives
      split
      · exact List.Pairwise.nil
      · exact List.Pairwise.sublist (List.filter_sublist _)
          (sortByTs_pairwise (tbl.filter fun r => r.importedTimestamp.isNone))
    have hmem : ∀ r, r ∈ GetPendingImportsForDrives tbl
          ((drives.map serialOf).filter fun s => s ≠ "") ↔
        r ∈ tbl ∧ r.importedTimestamp = none
        ∧ r.memberSerials.any
            (fun s => ((drives.map serialOf).filter fun s => s ≠ "").contains s)
          = true := by
      intro r
      unfold GetPendingImportsForDrives
      split
      · rename_i hser
        have : ((drives.map serialOf).filter fun s => s ≠ "") = [] :=
          List.isEmpty_iff.mp hser
        rw [this]
        simp
      · rw [List.mem_filter]
        unfold GetPendingImports
        rw [mem_sortByTs, List.mem_filter]
        simp [Option.isNone_iff_eq_none, and_assoc]
    refine ⟨?_, ?_, ?_, hpair, hmem⟩
    · cases drives with
      | nil => rfl
      | cons d ds =>
        obtain ⟨i1, _, _⟩ := impLoop_spec impOk now
          (GetPendingImportsForDrives tbl
            (((d :: ds).map serialOf).filter fun s => s ≠ "")) tbl
        rw [show (SpinupWithZFS (d :: ds) { noImport := false } serialOf impOk true
              tbl now).1
            = ((d :: ds).map SpinAction.start ++ (impLoop impOk now
            (GetPendingImportsForDrives tbl
            (((d :: ds).map serialOf).filter fun s => s ≠ "")) tbl).fst) from rfl]
        rw [importsOf_start_append]
        exact i1
    · cases drives with
      | nil => rfl
      | cons d ds =>
        obtain ⟨_, i2, _⟩ := impLoop_spec impOk now
          (GetPendingImportsForDrives tbl
            (((d :: ds).map serialOf).filter fun s => s ≠ "")) tbl
        rw [show (SpinupWithZFS (d :: ds) { noImport := false } serialOf impOk true
              tbl now).1
            = ((d :: ds).map SpinAction.start ++ (impLoop impOk now
            (GetPendingImportsForDrives tbl
            (((d :: ds).map serialOf).filter fun s => s ≠ "")) tbl).fst) from rfl]
        rw [marksOf_start_append]
        exact i2
    · cases drives with
      | nil => rfl
      | cons d ds =>
        obtain ⟨_, _, i3⟩ := impLoop_spec impOk now
          (GetPendingImportsForDrives tbl
            (((d :: ds).map serialOf).filter fun s => s ≠ "")) tbl
        rw [show (SpinupWithZFS (d :: ds) { noImport := false } serialOf impOk true
              tbl now).2
            = (impLoop impOk now
            (GetPendingImportsForDrives tbl
            (((d :: ds).map serialOf).filter fun s => s ≠ "")) tbl).snd from rfl]
        exact i3

/-- C7 witness, Scenario D: spinning up the two tank members resolves the
pending tank record, imports it once, and marks it success. -/
theorem C7_witness_scenario_d :
    importsOf (SpinupWithZFS ["/dev/sda", "/dev/sdb"] { noImport := false }
        Scenario.serialOfD (fun _ => true) true Scenario.tableD 99).1 = ["tank"]
    ∧ marksOf (SpinupWithZFS ["/dev/sda", "/dev/sdb"] { noImport := false }
        Scenario.serialOfD (fun _ => true) true Scenario.tableD 99).1
        = [("tank", "success")]
    ∧ (SpinupWithZFS ["/dev/sda", "/dev/sdb"] { noImport := false }
        Scenario.serialOfD (fun _ => true) true Scenario.tableD 99).2
        = [{ id := 0, poolName := "tank", exportTimestamp := 10,
             memberSerials := ["ZA1DKJT7", "ZA1DKJT8"],
             importedTimestamp := some 99, importStatus := some "success" }] := by
  have h := C7_spinup_resolves_pending_imports.2 ["/dev/sda", "/dev/sdb"]
    Scenario.serialOfD (fun _ => true) Scenario.tableD 99
  exact ⟨h.1.trans (by decide), h.2.1.trans (by decide), h.2.2.1.trans (by decide)⟩

end JbodGod
